import Mathlib

/-!
Shallow embedding of the graph-translation engine in
`openvino_tensorflow/ovtf_builder.cc` (Builder::TranslateGraph and its
helpers), used to check the natural-language specification against the code.

Machine scalar payloads (float bit patterns, integers of every width) are
modelled by `Int` values treated as opaque bit patterns: none of the verified
properties depend on scalar arithmetic, only on how values are moved,
truncated, filled forward and compared for identity.
-/

deriving instance DecidableEq for Except

namespace OvtfBuilder

/-- TensorFlow `Status` error codes used by `ovtf_builder.cc`
(`errors::InvalidArgument`, `errors::NotFound`, `errors::Unimplemented`,
`errors::Internal`). -/
inductive ErrorKind
  | invalidArgument
  | notFound
  | unimplemented
  | internal
deriving DecidableEq, Repr

/-- An error `Status`: a code plus the human-readable message assembled by the
`errors::…` constructor at the return site. -/
structure Error where
  kind : ErrorKind
  msg : String
deriving DecidableEq, Repr

/-- Model of `tensorflow::DataType` restricted to the constructors that
`ovtf_builder.cc` ever mentions. -/
inductive DataType
  | DT_FLOAT | DT_DOUBLE
  | DT_INT8 | DT_INT16 | DT_INT32 | DT_INT64
  | DT_UINT8 | DT_UINT16 | DT_UINT32 | DT_UINT64
  | DT_BOOL
  | DT_QINT8 | DT_QUINT8 | DT_QUINT16
  | DT_STRING
deriving DecidableEq, Repr

/-- Model of `ngraph::element::Type` values used by the builder. -/
inductive NgElemType
  | f32 | f64
  | i8 | i16 | i32 | i64
  | u8 | u16 | u32 | u64
  | boolean
deriving DecidableEq, Repr

/-- A `tensorflow::TensorProto` as consulted by `ValuesFromConstNode`:
the declared shape (dimension sizes may be negative = unknown), the raw
`tensor_content` byte buffer (modelled as the list of scalars it encodes;
empty list = no buffer), and the per-element-type repeated value list
(`int_val`/`float_val`/`int64_val`/`bool_val`/`double_val`; the one matching
the node's declared dtype). -/
structure TensorProto where
  dtype : DataType
  hasShape : Bool
  shapeDims : List Int
  tensorContent : List Int
  vals : List Int
deriving DecidableEq, Repr

/-- A materialized `tensorflow::Tensor`: element type, shape, and flat
row-major data. -/
structure Tensor where
  dtype : DataType
  dims : List Nat
  flat : List Int
deriving DecidableEq, Repr

/-- A source-graph `Node` (`tensorflow::Node`/`NodeDef`) with exactly the
attributes `ovtf_builder.cc` reads.  The generic TF attribute map is modelled
by one optional field per attribute name; `none` means the attribute is absent
(so `GetNodeAttr` fails). -/
structure TFNode where
  name : String
  typeString : String
  /-- the `"index"` attribute of `_Arg` / `_Retval` nodes -/
  indexAttr : Option Nat := none
  /-- the `"T"` attribute (element type) -/
  dtypeAttr : Option DataType := none
  /-- the `"dtype"` attribute of `Const` nodes -/
  constDtypeAttr : Option DataType := none
  /-- the `"value"` attribute of `Const` nodes -/
  valueAttr : Option TensorProto := none
  /-- the `"_prov_tag"` attribute -/
  provTagAttr : Option String := none
  /-- the `"_is_variable"` attribute -/
  isVariableAttr : Option Bool := none
  /-- ordered data input edges: (producer node name, producer output index) -/
  inputs : List (String × Nat) := []
deriving DecidableEq, Repr

/-- Model of `Node::IsArg()`. -/
def TFNode.isArg (n : TFNode) : Bool := n.typeString = "_Arg"

/-- Model of `Node::IsRetval()`. -/
def TFNode.isRetval (n : TFNode) : Bool := n.typeString = "_Retval"

/-- Model of `Node::IsSource()` / `Node::IsSink()`: the two sentinel nodes every TF
graph carries, named `_SOURCE` and `_SINK`. -/
def TFNode.isSentinel (n : TFNode) : Bool :=
  n.name = "_SOURCE" || n.name = "_SINK"

/-- Model of `Node::IsControlFlow()`: true for the TF control-flow primitives. -/
def TFNode.isControlFlow (n : TFNode) : Bool :=
  n.typeString = "Switch" || n.typeString = "Merge" ||
  n.typeString = "Enter" || n.typeString = "Exit" ||
  n.typeString = "NextIteration" || n.typeString = "LoopCond"

/-! ### ValuesFromConstNode (ovtf_builder.cc lines 356–470)

The fill-forward decoding loop.  `fillValsFrom vals rem i lastSaved`
mirrors the iterations `i, i+1, …, i+rem-1` of the
`for (auto i = 0; i < n_elements; i++)` loop, carrying `val_lastsaved`. -/

/-- One suffix of the `ValuesFromConstNode` element loop.  Per iteration:
if the repeated list is empty the slot keeps its zero-initialized value;
if `i` is within the list the listed value is stored and remembered as
`val_lastsaved`; otherwise `val_lastsaved` is stored. -/
def fillValsFrom (vals : List Int) : Nat → Nat → Int → List Int
  | 0, _, _ => []
  | rem + 1, i, lastSaved =>
    if vals.length = 0 then
      0 :: fillValsFrom vals rem (i + 1) lastSaved
    else if i < vals.length then
      vals.getD i 0 :: fillValsFrom vals rem (i + 1) (vals.getD i 0)
    else
      lastSaved :: fillValsFrom vals rem (i + 1) lastSaved

/-- The whole element loop of `ValuesFromConstNode`: `n` slots starting at
index 0 with `val_lastsaved` zero-initialized. -/
def fillVals (vals : List Int) (n : Nat) : List Int :=
  fillValsFrom vals n 0 0

/-- The element types handled by the `switch (dt)` in the empty-tensor branch
of `ValuesFromConstNode`. -/
def valuesFromConstSupported (dt : DataType) : Bool :=
  dt = .DT_INT32 || dt = .DT_INT64 || dt = .DT_FLOAT ||
  dt = .DT_BOOL || dt = .DT_DOUBLE

/-- Model of `ValuesFromConstNode<T>(node, &const_tensor_shape, &values)` for the
requested element type `T`.  Returns the proto's declared shape together with
the decoded value vector. -/
def valuesFromConstNode (T : DataType) (node : TFNode) :
    Except Error (List Int × List Int) :=
  if node.typeString ≠ "Const" then
    .error ⟨.invalidArgument, "Node not a Const"⟩
  else
    match node.constDtypeAttr, node.valueAttr with
    | some dt, some tensor =>
      if dt ≠ T then
        .error ⟨.invalidArgument, "Invalid data type defined for Const."⟩
      else if tensor.vals ≠ [] && tensor.hasShape &&
          tensor.shapeDims.length = 1 &&
          tensor.shapeDims.getD 0 0 = (tensor.vals.length : Int) then
        -- uncompressed fast path: copy the repeated values directly
        .ok (tensor.shapeDims, tensor.vals)
      else if tensor.tensorContent = [] then
        if tensor.shapeDims.any (· < 0) then
          .error ⟨.invalidArgument,
            "Const node has empty tensor and an unknown dimension size"⟩
        else if valuesFromConstSupported dt then
          .ok (tensor.shapeDims,
               fillVals tensor.vals (tensor.shapeDims.map Int.toNat).prod)
        else
          .error ⟨.unimplemented,
            "Encountered unknown element type on an empty tensor"⟩
      else
        -- raw byte buffer: reinterpret the buffer as the value vector
        .ok (tensor.shapeDims, tensor.tensorContent)
    | _, _ =>
      .error ⟨.invalidArgument, "Const node missing dtype or value attribute"⟩

/-! ### Static value resolution (ovtf_builder.cc lines 200–233, 236–290) -/

/-- Model of `tensorflow::Tensor::FromProto` (external TensorFlow library code, the
call made by `GetStaticNodeTensor` on a `Const` node): rejects protos with an
unknown (negative) dimension or a byte buffer of the wrong length; otherwise
materializes the tensor, decoding a short typed value list with the same
replicate-the-last-value rule the TF decoder applies. -/
def fromProto (p : TensorProto) : Option Tensor :=
  if p.shapeDims.any (· < 0) then none
  else
    let dims := p.shapeDims.map Int.toNat
    let n := dims.prod
    if p.tensorContent ≠ [] then
      if p.tensorContent.length = n then some ⟨p.dtype, dims, p.tensorContent⟩
      else none
    else if p.vals.length = 0 && n ≠ 0 then none
    else some ⟨p.dtype, dims, fillVals p.vals n⟩

/-- The caller-supplied table of precomputed input tensors
(`std::vector<const Tensor*>`; `none` = null pointer slot). -/
abbrev StaticInputMap := List (Option Tensor)

/-- Model of `GetStaticNodeTensor(node, static_input_map, result)`: the producing node
must be an `_Arg` (value read from the static input map at the node's declared
index) or a `Const` (value parsed from its tensor proto); anything else is an
`Internal` error. -/
def getStaticNodeTensor (node : TFNode) (staticInputMap : StaticInputMap) :
    Except Error Tensor :=
  if node.isArg then
    match node.indexAttr with
    | none => .error ⟨.invalidArgument, "No index attribute on _Arg"⟩
    | some argIndex =>
      match (staticInputMap.getD argIndex none) with
      | none =>
        .error ⟨.internal,
          "GetStaticNodeTensor called on _Arg but input tensor is missing from static input map"⟩
      | some t => .ok t
  else if node.typeString = "Const" then
    match node.valueAttr with
    | none => .error ⟨.internal,
        "GetStaticNodeTensor: Const tensor proto parsing failed"⟩
    | some proto =>
      match fromProto proto with
      | none => .error ⟨.internal,
          "GetStaticNodeTensor: Const tensor proto parsing failed"⟩
      | some t => .ok t
  else
    .error ⟨.internal,
      "GetStaticNodeTensor called on node with type " ++ node.typeString ++
      "; _Arg or Const expected"⟩

/-- The source element types accepted by the conversion `switch` in
`TensorDataToVector`. -/
def tensorDataConvertible (dt : DataType) : Bool :=
  dt = .DT_FLOAT || dt = .DT_DOUBLE ||
  dt = .DT_INT8 || dt = .DT_INT16 || dt = .DT_INT32 || dt = .DT_INT64 ||
  dt = .DT_UINT8 || dt = .DT_UINT16 || dt = .DT_UINT32 || dt = .DT_UINT64 ||
  dt = .DT_BOOL

/-- Model of `TensorDataToVector<T>(tensor, vector)`.  When the tensor's element type
already equals the requested type `T` the flat data is copied verbatim;
otherwise each element goes through the C++ scalar cast, modelled by the
explicit `cast` argument (bit-level numeric conversion is outside the scalar
model); a source type outside the conversion switch is an `Internal` error. -/
def tensorDataToVector (cast : DataType → DataType → Int → Int)
    (T : DataType) (t : Tensor) : Except Error (List Int) :=
  if t.dtype = T then .ok t.flat
  else if tensorDataConvertible t.dtype then
    .ok (t.flat.map (cast t.dtype T))
  else
    .error ⟨.internal, "TensorDataToVector: don't know how to convert"⟩

/-- Model of `GetStaticInputVector<T>` restricted to an already-located producer node:
resolve the node's tensor and convert it to the requested element type.  This
is the read-back path of the Static Value Resolver. -/
def getStaticVectorOfNode (cast : DataType → DataType → Int → Int)
    (T : DataType) (node : TFNode) (staticInputMap : StaticInputMap) :
    Except Error (List Int) :=
  match getStaticNodeTensor node staticInputMap with
  | .error e => .error e
  | .ok t => tensorDataToVector cast T t

/-! ### Constant materializer (ovtf_builder.cc lines 484–520) -/

/-- A target-IR `opset::Constant` node as built by `MakeConstOp`. -/
structure NgConstant where
  et : NgElemType
  shape : List Nat
  values : List Int
deriving DecidableEq, Repr

/-- Model of `MakeConstOp<T, VecT>(op, et, ng_node)`: decode the node's payload with
`ValuesFromConstNode`, convert the declared shape, and build an
`opset::Constant` holding the decoded values. -/
def makeConstOp (T : DataType) (et : NgElemType) (node : TFNode) :
    Except Error NgConstant :=
  match valuesFromConstNode T node with
  | .error e => .error e
  | .ok (shapeDims, constValues) =>
    if shapeDims.any (· < 0) then
      .error ⟨.invalidArgument, "TensorShape: negative dimension"⟩
    else
      .ok ⟨et, shapeDims.map Int.toNat, constValues⟩

/-- Model of `Builder::TF_NGRAPH_CONST_MAP()`: the registered
(TF data type → target element type) pairs of the constant materializer;
each entry dispatches to `MakeConstOp` at that type. -/
def TF_NGRAPH_CONST_MAP : List (DataType × NgElemType) :=
  [(.DT_FLOAT, .f32), (.DT_DOUBLE, .f64),
   (.DT_INT8, .i8), (.DT_INT16, .i16),
   (.DT_QINT8, .i8), (.DT_QUINT8, .u8), (.DT_QUINT16, .u16),
   (.DT_INT32, .i32), (.DT_INT64, .i64),
   (.DT_UINT8, .u8), (.DT_UINT16, .u16),
   (.DT_BOOL, .boolean)]

/-- Model of `TranslateConstOp`'s dispatch through `TF_NGRAPH_CONST_MAP`: look up the
node's declared dtype; a missing entry is the `Unimplemented` catch, a present
entry runs the registered `MakeConstOp` instantiation. -/
def translateConstNode (node : TFNode) : Except Error NgConstant :=
  match node.constDtypeAttr with
  | none => .error ⟨.invalidArgument, "No dtype attribute on Const"⟩
  | some dtype =>
    match TF_NGRAPH_CONST_MAP.find? (fun p => p.1 = dtype) with
    | none => .error ⟨.unimplemented,
        "Failed to translate Constant with TF type"⟩
    | some (T, et) => makeConstOp T et node

/-! ### Target-IR values, the OutputMap, and input resolution
(ovtf_builder.cc lines 86–178) -/

/-- What a target-IR value is, as far as the driver can observe. -/
inductive NgKind
  /-- an `opset::Parameter` -/
  | parameter
  /-- an `opset::Constant`; carries its element values -/
  | constant (values : List Int)
  /-- an output produced inside some operator handler -/
  | handlerMade
deriving DecidableEq, Repr

/-- An `ng::Output<ng::Node>`: the identity of the producing target node plus
its output index, together with the node's provenance tags (appended by
`SetTracingInfo`), element type and shape (`none` = dynamic / not fully
static). -/
structure NgOut where
  nodeId : Nat
  outIndex : Nat := 0
  kind : NgKind := .handlerMade
  et : NgElemType := .f32
  shape : Option (List Nat) := none
  tags : List String := []
deriving DecidableEq, Repr

/-- Model of `ng::Output` equality (`operator==` compares producing node and output
index, not tags). -/
def sameOutput (a b : NgOut) : Bool :=
  a.nodeId = b.nodeId && a.outIndex = b.outIndex

/-- Model of `Builder::SetTracingInfo(op_name, ng_node)`: sets the friendly name and
adds `op_name` as a provenance tag on the underlying node. -/
def setTracingInfo (opName : String) (out : NgOut) : NgOut :=
  { out with tags := out.tags ++ [opName] }

/-- Model of `ConstructNgNode<TOpType>(op_name, args…)`: build the target node and
immediately run `SetTracingInfo` on it.  `raw` is the freshly constructed,
not-yet-tagged node. -/
def constructNgNode (opName : String) (raw : NgOut) : NgOut :=
  setTracingInfo opName raw

/-- Model of `Builder::OpMap` (`ng_op_map`): source node name → ordered list of
produced target values. -/
abbrev OpMap := List (String × List NgOut)

/-- Map lookup (`ng_op_map.at(name)`, with the out-of-range catch at call
sites). -/
def lookupOpMap (om : OpMap) (key : String) : Option (List NgOut) :=
  match om.find? (fun p => p.1 = key) with
  | none => none
  | some p => some p.2

/-- Model of `SaveNgOp(ng_op_map, op_name, output_node)`: append to the entry,
creating it if absent. -/
def saveNgOp (om : OpMap) (opName : String) (out : NgOut) : OpMap :=
  match om with
  | [] => [(opName, [out])]
  | (k, vs) :: rest =>
    if k = opName then (k, vs ++ [out]) :: rest
    else (k, vs) :: saveNgOp rest opName out

/-- Model of `GetInputNode(ng_op_map, op, input_idx, result)`: follow the `input_idx`-th
input edge to its producer, look the producer up in the OutputMap, and select
the producer output the edge designates; each missing step is `NotFound`. -/
def getInputNode (om : OpMap) (op : TFNode) (inputIdx : Nat) :
    Except Error NgOut :=
  match op.inputs.get? inputIdx with
  | none => .error ⟨.notFound, "Edge not found"⟩
  | some (producerName, srcOutputIdx) =>
    match lookupOpMap om producerName with
    | none => .error ⟨.notFound, "Ngraph op not found for " ++ producerName⟩
    | some outs =>
      match outs.get? srcOutputIdx with
      | none => .error ⟨.notFound, "Input node not found at index"⟩
      | some r => .ok r

/-- Model of `ValidateInputCount(op, count)`. -/
def validateInputCount (op : TFNode) (count : Nat) : Except Error Unit :=
  if op.inputs.length ≠ count then
    .error ⟨.invalidArgument, "\"" ++ op.name ++ "\" requires inputs"⟩
  else .ok ()

/-! ### Generic unary/binary/identity handlers
(ovtf_builder.cc lines 536–556, 603–641, 2283–2290) -/

/-- Model of `TranslateUnaryOp(op, static_input_map, ng_op_map, create_unary_op)`:
fetch the single input, run the construction function, and re-tag the result
with the source node's name unless the construction returned the input itself
(identity fold). -/
def translateUnaryOp (om : OpMap) (op : TFNode) (create : NgOut → NgOut) :
    Except Error OpMap :=
  match validateInputCount op 1 with
  | .error e => .error e
  | .ok _ =>
    match getInputNode om op 0 with
    | .error e => .error e
    | .ok ngInput =>
      let ngNode := create ngInput
      let ngNode :=
        if sameOutput ngNode ngInput then ngNode
        else setTracingInfo op.name ngNode
      .ok (saveNgOp om op.name ngNode)

/-- Model of `TranslateBinaryOp(op, static_input_map, ng_op_map, create_binary_op)`:
as the unary helper but with two inputs; the fresh provenance tag is skipped
when the result literally is either input. -/
def translateBinaryOp (om : OpMap) (op : TFNode)
    (create : NgOut → NgOut → NgOut) : Except Error OpMap :=
  match validateInputCount op 2 with
  | .error e => .error e
  | .ok _ =>
    match getInputNode om op 0 with
    | .error e => .error e
    | .ok ngLhs =>
      match getInputNode om op 1 with
      | .error e => .error e
      | .ok ngRhs =>
        let ngNode := create ngLhs ngRhs
        let ngNode :=
          if sameOutput ngNode ngLhs || sameOutput ngNode ngRhs then ngNode
          else setTracingInfo op.name ngNode
        .ok (saveNgOp om op.name ngNode)

/-- Model of `TranslateIdentityOp`: pure pass-through — the input value is stored for
the node's name unchanged, with no fresh provenance tag. -/
def translateIdentityOp (om : OpMap) (op : TFNode) : Except Error OpMap :=
  match validateInputCount op 1 with
  | .error e => .error e
  | .ok _ =>
    match getInputNode om op 0 with
    | .error e => .error e
    | .ok ngArg => .ok (saveNgOp om op.name ngArg)

/-- Model of the input-fetch loop of `TranslateAddNOp`: resolve the node's
inputs at indices `idx, idx+1, …` (`rem` of them) through `GetInputNode`. -/
def getInputNodesAux (om : OpMap) (op : TFNode) :
    Nat → Nat → Except Error (List NgOut)
  | _, 0 => .ok []
  | idx, rem + 1 =>
    match getInputNode om op idx with
    | .error e => .error e
    | .ok v =>
      match getInputNodesAux om op (idx + 1) rem with
      | .error e => .error e
      | .ok vs => .ok (v :: vs)

/-- Model of the `std::accumulate` lambda in `TranslateAddNOp`: fold the
remaining inputs into the accumulator, constructing one fresh `opset::Add`
target node (tagged, since it goes through `ConstructNgNode`) per remaining
input; over an empty remainder the initial value is returned untouched.
`freshId` numbers the newly constructed target nodes. -/
def addNAccum (opName : String) : Nat → NgOut → List NgOut → NgOut
  | _, acc, [] => acc
  | freshId, acc, _ :: rest =>
    addNAccum opName (freshId + 1)
      (constructNgNode opName ⟨freshId, 0, .handlerMade, acc.et, none, []⟩)
      rest

/-- Model of `TranslateAddNOp` (ovtf_builder.cc lines 643–660): fetch every
input, then `std::accumulate` from the second input onward starting at the
first, building an `opset::Add` per step.  With a single input the
accumulation range is empty and the input itself is saved — with no fresh
provenance tag — under the node's name.  `ng_arg_vec.at(0)` on a zero-input
node throws `out_of_range`, which the driver's catch converts to an
`Internal` error. -/
def translateAddNOp (freshId : Nat) (om : OpMap) (op : TFNode) :
    Except Error OpMap :=
  match getInputNodesAux om op 0 op.inputs.length with
  | .error e => .error e
  | .ok [] => .error ⟨.internal, "ng_arg_vec.at(0): out of range"⟩
  | .ok (first :: rest) =>
    .ok (saveNgOp om op.name (addNAccum op.name freshId first rest))

/-- Model of the `reshape_pattern` constant of `TranslateFusedConv2DOp`
(ovtf_builder.cc lines 2016–2019; the depthwise variant at lines 2255–2258 is
identical): a `u64` constant of shape `[conv_rank]` holding ones with the
bias dimension at index 1, built with a bare `make_shared<opset::Constant>` —
not `ConstructNgNode` — so `SetTracingInfo` never runs on it and the new
target node carries no provenance tag. -/
def fusedConv2DReshapePatternConstant (convRank biasDim freshId : Nat) :
    NgOut :=
  ⟨freshId, 0,
   .constant ((List.replicate convRank (1 : Int)).set 1 (biasDim : Int)),
   .u64, some [convRank], []⟩

/-! ### The translation driver (ovtf_builder.cc lines 3737–4035) -/

/-- Modelled from the spec: `util::TFDataTypeToNGraphElementType`
(ovtf_utils.cc, a repository file outside the provided sources) — the fixed
TF-data-type → target-element-type table; unsupported types fail. -/
def tfDataTypeToNgElementType : DataType → Option NgElemType
  | .DT_FLOAT => some .f32
  | .DT_DOUBLE => some .f64
  | .DT_INT8 => some .i8
  | .DT_INT16 => some .i16
  | .DT_INT32 => some .i32
  | .DT_INT64 => some .i64
  | .DT_UINT8 => some .u8
  | .DT_UINT16 => some .u16
  | .DT_UINT32 => some .u32
  | .DT_UINT64 => some .u64
  | .DT_BOOL => some .boolean
  | .DT_QINT8 => some .i8
  | .DT_QUINT8 => some .u8
  | .DT_QUINT16 => some .u16
  | .DT_STRING => none

/-- An `opset::Parameter` as stored in `ng_parameter_list`: provenance tag
(from the `_prov_tag` attribute), element type and declared shape. -/
structure ParamNode where
  provTag : String
  et : NgElemType
  shape : List Nat
deriving DecidableEq, Repr

/-- An `opset::Result` as stored in `ng_result_list`: the `_Retval` node's
name, the wrapped value, and the row-major layout flag set at the end of
`TranslateGraph`. -/
structure ResultNode where
  name : String
  value : NgOut
  needsDefaultLayout : Bool := false
deriving DecidableEq, Repr

/-- The assembled `ng::Function`: named, with the filtered formal parameter
and result lists. -/
structure NgFunction where
  name : String
  parameters : List ParamNode
  results : List ResultNode
deriving DecidableEq, Repr

/-- The uniform signature of a registered lowering handler
(`function<Status(const Node*, const std::vector<const Tensor*>&,
Builder::OpMap&)>`). -/
abbrev Handler := TFNode → StaticInputMap → OpMap → Except Error OpMap

/-- The driver's external context: the operator registry (handlers are kept
parametric — only their `Status`/OpMap behavior matters to the driver), the
optional global rewrite passes (external `ngraph::pass` library code, run as a
whole), the `OPENVINO_TF_CONVERT_VARIABLES_TO_CONSTANTS` flag, and the C++
scalar cast used by tensor-to-vector conversion. -/
structure TranslateEnv where
  registry : List (String × Handler)
  passes : NgFunction → NgFunction := id
  convertVariablesFlag : Bool := true
  cast : DataType → DataType → Int → Int := fun _ _ v => v

/-- Registry lookup (`TRANSLATE_OP_MAP.at(type_string)` with its
`out_of_range` catch at the call site). -/
def lookupHandler (registry : List (String × Handler)) (ty : String) :
    Option Handler :=
  match registry.find? (fun p => p.1 = ty) with
  | none => none
  | some p => some p.2

/-- The key set of `TRANSLATE_OP_MAP` (ovtf_builder.cc lines 3591–3735),
verbatim. -/
def TRANSLATE_OP_MAP_KEYS : List String :=
  ["Abs", "Acos", "Acosh", "Add", "AddN", "AddV2", "Any", "All", "ArgMax",
   "ArgMin", "Asin", "Asinh", "Atan", "Atanh", "AvgPool", "AvgPool3D",
   "BatchToSpaceND", "BiasAdd", "Cast", "Ceil", "ConcatV2", "Const",
   "Conv2D", "Conv2DBackpropInput", "Conv3D", "Conv3DBackpropInputV2",
   "Cos", "Cosh", "CropAndResize", "Cumsum", "DepthToSpace",
   "DepthwiseConv2dNative", "Elu", "Equal", "Exp", "ExpandDims",
   "FakeQuantWithMinMaxVars", "Fill", "Floor", "FloorDiv", "FloorMod",
   "FusedBatchNorm", "FusedBatchNormV2", "FusedBatchNormV3", "Gather",
   "GatherV2", "GatherNd", "_FusedBatchNormEx", "_FusedConv2D",
   "_FusedDepthwiseConv2dNative", "_FusedMatMul", "Greater", "GreaterEqual",
   "Identity", "IsFinite", "L2Loss", "LogSoftmax", "LeakyRelu", "Less",
   "LessEqual", "Log", "Log1p", "LogicalAnd", "LogicalNot", "LogicalOr",
   "LRN", "MatMul", "Max", "Maximum", "MaxPool", "MaxPool3D",
   "NonMaxSuppressionV2", "NonMaxSuppressionV3", "Mean", "Min", "Minimum",
   "MirrorPad", "Mul", "Mod", "Neg", "NotEqual", "NoOp", "OneHot", "Pack",
   "Pad", "PadV2", "Pow", "PreventGradient", "Prod", "Range", "Rank",
   "RealDiv", "Reciprocal", "Relu", "Relu6", "Reshape", "Round",
   "ResizeBilinear", "ResizeNearestNeighbor", "Reverse", "ReverseV2",
   "Rsqrt", "ScatterNd", "Select", "SelectV2", "Shape", "Sigmoid", "Sin",
   "Sinh", "Size", "Sign", "Slice", "Snapshot", "Softmax", "Softplus",
   "SpaceToBatchND", "SpaceToDepth", "Split", "SplitV", "Sqrt", "Square",
   "SquaredDifference", "Squeeze", "StridedSlice", "Sub", "Sum", "Tan",
   "Tanh", "Tile", "TopKV2", "Transpose", "Unpack", "Where", "Xdivy",
   "ZerosLike"]

/-- Node ordering used by the driver's sort: `NodeComparatorName` compares
node names (byte-lexicographically, modelled as the lexicographic order on
the names' character lists). -/
def nodeLE (a b : TFNode) : Prop := a.name.data ≤ b.name.data

instance : DecidableRel nodeLE := fun a b =>
  inferInstanceAs (Decidable (a.name.data ≤ b.name.data))

instance : IsTotal TFNode nodeLE :=
  ⟨fun a b => le_total a.name.data b.name.data⟩

instance : IsTrans TFNode nodeLE :=
  ⟨fun _ _ _ hab hbc => le_trans hab hbc⟩

/-- Is `n` emittable: every data dependency either already emitted or absent
from the graph (dangling references impose no ordering). -/
def nodeReady (emitted : List String) (allNames : List String) (n : TFNode) :
    Bool :=
  n.inputs.all fun p => emitted.contains p.1 || !(allNames.contains p.1)

/-- One step per unit of fuel: emit the first (least-named, since the list is
kept name-sorted) ready node; when none is ready (a cycle) the remainder is
flushed as-is. -/
def topoAux (allNames : List String) :
    Nat → List TFNode → List String → List TFNode
  | 0, remaining, _ => remaining
  | fuel + 1, remaining, emitted =>
    match remaining.find? (nodeReady emitted allNames) with
    | none => remaining
    | some n =>
      n :: topoAux allNames fuel (remaining.erase n) (n.name :: emitted)

/-- Modelled from the spec: `GetReversePostOrder(graph, &ordered,
NodeComparatorName())` (TensorFlow library code, not part of this repository)
— "topologically sort all non-sentinel nodes, breaking ties deterministically
by node name".  The node list is first canonicalized by sorting on names, so
the produced order is a function of the graph's node set alone. -/
def getReversePostOrderByName (nodes : List TFNode) : List TFNode :=
  let s := nodes.insertionSort nodeLE
  topoAux (s.map (·.name)) s.length s []

/-- The node-partition loop at the top of `TranslateGraph`: skip the
source/sink sentinels, reject control-flow nodes, and split the rest into
`tf_params` / `tf_ret_vals` / `tf_ops`, preserving the visit order. -/
def partitionNodes :
    List TFNode → Except Error (List TFNode × List TFNode × List TFNode)
  | [] => .ok ([], [], [])
  | n :: rest =>
    if n.isSentinel then partitionNodes rest
    else if n.isControlFlow then
      .error ⟨.unimplemented,
        "Encountered a control flow op in the openvino_tensorflow: " ++ n.name⟩
    else
      match partitionNodes rest with
      | .error e => .error e
      | .ok (ps, rs, os) =>
        if n.isArg then .ok (n :: ps, rs, os)
        else if n.isRetval then .ok (ps, n :: rs, os)
        else .ok (ps, rs, n :: os)

/-- Model of `MakeConstOpForParam<T>(tensor, prov_tag, ng_et, ng_shape, ng_node)`:
convert the frozen input tensor's data (the conversion status is discarded in
the source — a failed conversion leaves the value vector empty) and build a
constant tagged with the parameter's provenance tag. -/
def makeConstOpForParam (cast : DataType → DataType → Int → Int)
    (dtype : DataType) (tensor : Tensor) (provTag : String)
    (ngEt : NgElemType) (ngShape : List Nat) : NgOut :=
  let constValues :=
    match tensorDataToVector cast dtype tensor with
    | .ok v => v
    | .error _ => []
  ⟨0, 0, .constant constValues, ngEt, some ngShape, [provTag]⟩

/-- The element types accepted by the `switch (dtype)` of the
variable-freezing branch of `TranslateGraph`. -/
def paramFreezeSupported (dt : DataType) : Bool :=
  dt = .DT_FLOAT || dt = .DT_DOUBLE ||
  dt = .DT_INT8 || dt = .DT_INT16 || dt = .DT_INT32 || dt = .DT_INT64 ||
  dt = .DT_UINT8 || dt = .DT_UINT16 || dt = .DT_UINT32 || dt = .DT_UINT64 ||
  dt = .DT_BOOL

/-- The per-parameter body of `TranslateGraph`'s parameter loop: resolve
dtype/index/element type/declared shape; when the declared shape has rank ≥ 1
and a zero dimension, record an empty constant in the OutputMap instead of the
parameter value; otherwise record either a frozen constant (variable mode) or
the parameter value.  `ng_parameter_list[index]` receives the parameter node
in every case. -/
def processOneParam (env : TranslateEnv) (inputs : List (List Nat))
    (tensors : List Tensor) (parm : TFNode)
    (acc : OpMap × List (Option ParamNode)) :
    Except Error (OpMap × List (Option ParamNode)) :=
  let (om, plist) := acc
  match parm.dtypeAttr with
  | none => .error ⟨.invalidArgument, "No data type defined for _Arg"⟩
  | some dtype =>
    match parm.indexAttr with
    | none => .error ⟨.invalidArgument, "No index defined for _Arg"⟩
    | some index =>
      match tfDataTypeToNgElementType dtype with
      | none => .error ⟨.unimplemented, "Unsupported TF data type"⟩
      | some ngEt =>
        match inputs.get? index with
        | none =>
          -- guard for the out-of-bounds `inputs[index]` access (C++ UB)
          .error ⟨.internal, "input shape index out of range"⟩
        | some ngShape =>
          let provTag := parm.provTagAttr.getD ""
          let ngParam : ParamNode := ⟨provTag, ngEt, ngShape⟩
          let shapeCheck := ngShape.length > 0 && ngShape.any (· = 0)
          let isVariable := env.convertVariablesFlag && tensors ≠ [] &&
            parm.isVariableAttr.getD false
          let omStep : Except Error OpMap :=
            if shapeCheck then
              .ok (saveNgOp om parm.name
                ⟨0, 0, .constant (List.replicate ngShape.prod 0), ngEt,
                 some ngShape, [provTag]⟩)
            else if isVariable then
              match tensors.get? index with
              | none =>
                -- guard for the out-of-bounds `tf_input_tensors[index]` (C++ UB)
                .error ⟨.internal, "input tensor index out of range"⟩
              | some tensor =>
                if paramFreezeSupported dtype then
                  .ok (saveNgOp om parm.name
                    (makeConstOpForParam env.cast dtype tensor provTag ngEt
                      ngShape))
                else
                  .error ⟨.internal, "Tensor has element type; don't know how to convert"⟩
            else
              .ok (saveNgOp om parm.name
                ⟨0, 0, .parameter, ngEt, some ngShape, [provTag]⟩)
          match omStep with
          | .error e => .error e
          | .ok om' =>
            if index < plist.length then
              .ok (om', plist.set index (some ngParam))
            else
              -- guard for the out-of-bounds `ng_parameter_list[index]` (C++ UB)
              .error ⟨.internal, "parameter index out of range"⟩

/-- The parameter loop of `TranslateGraph` over `tf_params`. -/
def processParams (env : TranslateEnv) (inputs : List (List Nat))
    (tensors : List Tensor) :
    List TFNode → (OpMap × List (Option ParamNode)) →
    Except Error (OpMap × List (Option ParamNode))
  | [], acc => .ok acc
  | parm :: rest, acc =>
    match processOneParam env inputs tensors parm acc with
    | .error e => .error e
    | .ok acc' => processParams env inputs tensors rest acc'

/-- The interior-operator loop of `TranslateGraph`: look each node's kind up
in the registry — a missing entry is the catch-all `InvalidArgument` failure
naming the node and its kind — and run the registered handler, aborting on
its first error. -/
def processOps (registry : List (String × Handler)) (smap : StaticInputMap) :
    List TFNode → OpMap → Except Error OpMap
  | [], om => .ok om
  | op :: rest, om =>
    match lookupHandler registry op.typeString with
    | none =>
      .error ⟨.invalidArgument,
        "No translation handler registered for op: " ++ op.name ++ " (" ++
        op.typeString ++ ")"⟩
    | some f =>
      match f op smap om with
      | .error e => .error e
      | .ok om' => processOps registry smap rest om'

/-- The result loop of `TranslateGraph` over `tf_ret_vals`: each `_Retval`
must have exactly one input, whose value is resolved from the OutputMap and
wrapped in an `opset::Result` stored at the retval's declared index. -/
def processRetvals (om : OpMap) :
    List TFNode → List (Option ResultNode) →
    Except Error (List (Option ResultNode))
  | [], rlist => .ok rlist
  | n :: rest, rlist =>
    if n.inputs.length ≠ 1 then
      .error ⟨.invalidArgument, "_Retval has inputs, should have 1"⟩
    else
      match n.indexAttr with
      | none => .error ⟨.invalidArgument, "No index defined for _Retval"⟩
      | some index =>
        match getInputNode om n 0 with
        | .error e => .error e
        | .ok result =>
          if index < rlist.length then
            processRetvals om rest
              (rlist.set index (some ⟨n.name, result, false⟩))
          else
            -- guard for the out-of-bounds `ng_result_list[index]` (C++ UB)
            .error ⟨.internal, "result index out of range"⟩

/-- The parameter filter: `ng_func_parameter_list` keeps
`ng_parameter_list[i]` unless its shape has rank ≥ 1 and contains a zero
dimension (`param_dim_check`). -/
def paramIncluded (p : ParamNode) : Bool :=
  !(p.shape.length > 0 && p.shape.any (· = 0))

/-- The result filter: `ng_func_result_list` keeps `ng_result_list[i]` when
it is dynamically shaped, or when its static shape does not have rank ≥ 1
with a zero dimension (`result_dim_check`). -/
def resultIncluded (r : ResultNode) : Bool :=
  match r.value.shape with
  | none => true
  | some s => !(s.length > 0 && s.any (· = 0))

/-- Guard for reading every preallocated slot of
`ng_parameter_list`/`ng_result_list`: a slot never assigned by the index loops
is a null shared pointer in the source (dereferencing it would be C++ UB). -/
def collectSlots {α : Type} : List (Option α) → Except Error (List α)
  | [] => .ok []
  | none :: _ => .error ⟨.internal, "unassigned indexed slot"⟩
  | some a :: rest =>
    match collectSlots rest with
    | .error e => .error e
    | .ok l => .ok (a :: l)

/-- Model of `result->set_needs_default_layout(true)`: the row-major layout request
applied to every formal result at the end of `TranslateGraph`. -/
def setDefaultLayout (r : ResultNode) : ResultNode :=
  { r with needsDefaultLayout := true }

/-- The assembly step of `TranslateGraph`: filter the indexed parameter and
result lists and construct the `ng::Function`. -/
def assembleFunction (name : String) (plist : List (Option ParamNode))
    (rlist : List (Option ResultNode)) : Except Error NgFunction :=
  match collectSlots plist with
  | .error e => .error e
  | .ok params =>
    match collectSlots rlist with
    | .error e => .error e
    | .ok results =>
      .ok ⟨name, params.filter paramIncluded, results.filter resultIncluded⟩

/-- The body of the seven-argument `Builder::TranslateGraph` after the node
ordering: partition, bind parameters, dispatch interior operators, bind
results, assemble, run the optional passes, and request row-major layout on
every formal result. -/
def translateGraphOrdered (env : TranslateEnv) (inputs : List (List Nat))
    (smap : StaticInputMap) (ordered : List TFNode) (name : String)
    (tensors : List Tensor) :
    Except Error (NgFunction × List (Option ResultNode)) :=
  match partitionNodes ordered with
  | .error e => .error e
  | .ok (parms, rets, ops) =>
    match processParams env inputs tensors parms
        ([], List.replicate parms.length none) with
    | .error e => .error e
    | .ok (om, plist) =>
      match processOps env.registry smap ops om with
      | .error e => .error e
      | .ok om' =>
        match processRetvals om' rets (List.replicate rets.length none) with
        | .error e => .error e
        | .ok rlist =>
          match assembleFunction name plist rlist with
          | .error e => .error e
          | .ok f =>
            let f2 := env.passes f
            let f3 := { f2 with results := f2.results.map setDefaultLayout }
            .ok (f3, rlist)

/-- The seven-argument `Builder::TranslateGraph` overload: order the nodes,
then run the driver body. -/
def translateGraph (env : TranslateEnv) (inputs : List (List Nat))
    (smap : StaticInputMap) (nodes : List TFNode) (name : String)
    (tensors : List Tensor) :
    Except Error (NgFunction × List (Option ResultNode)) :=
  translateGraphOrdered env inputs smap (getReversePostOrderByName nodes)
    name tensors

/-- The five-argument `Builder::TranslateGraph` overload (ovtf_builder.cc
lines 3737–3747): call the full overload with a fresh result list and no
input tensors, discard the inner status, and `return Status::OK()`.  The
second component records what the inner call left in the `ng_function`
out-parameter (`none` when the inner call failed before producing one). -/
def translateGraphNoResultList (env : TranslateEnv)
    (inputs : List (List Nat)) (smap : StaticInputMap) (nodes : List TFNode)
    (name : String) : Except Error Unit × Option NgFunction :=
  match translateGraph env inputs smap nodes name [] with
  | .ok (f, _) => (.ok (), some f)
  | .error _ => (.ok (), none)

/-! ### Fused-operator expanders
(ovtf_builder.cc lines 1780–1831 `TranslateFusedMatMulOp`,
1905–2148 `TranslateFusedConv2DOp`,
2150–2281 `TranslateFusedDepthwiseConv2dNativeOp`)

The handlers are modelled as functions of the composite node's attributes and
of the shapes its already-resolved inputs carry; the produced value is the
ordered list of principal target primitives constructed on the main data path
(the layout-normalization transposes inserted by `NHWCtoNCHW`/`NCHWtoNHWC`
and the small index-constant helpers do not affect any decision and are not
listed). -/

/-- A fused composite node: its input arity and the attributes the three
fused handlers read (an absent attribute makes the corresponding
`GetNodeAttr` fail), plus the static shapes of its main input and its bias
input. -/
structure FusedNodeData where
  name : String
  numInputs : Nat
  numArgsAttr : Option Nat := none
  fusedOpsAttr : Option (List String) := none
  dataFormatAttr : Option String := none
  stridesAttr : Option (List Int) := none
  dilationsAttr : Option (List Int) := none
  paddingAttr : Option String := none
  leakyreluAlphaAttr : Option Int := none
  epsilonAttr : Option Int := none
  transposeAAttr : Option Bool := none
  transposeBAttr : Option Bool := none
  inputShape : List Nat := []
  biasShape : List Nat := []
deriving DecidableEq, Repr

/-- The literal allow-list head of `TranslateFusedConv2DOp`: the eight
`BiasAdd`-led sequences. -/
def fusedConv2DBiasSeqs (fo : List String) : Bool :=
  fo = ["BiasAdd"] || fo = ["BiasAdd", "Relu"] || fo = ["BiasAdd", "Relu6"] ||
  fo = ["BiasAdd", "LeakyRelu"] || fo = ["BiasAdd", "Elu"] ||
  fo = ["BiasAdd", "Add", "Relu"] || fo = ["BiasAdd", "Add"] ||
  fo = ["BiasAdd", "Add", "LeakyRelu"]

/-- The three `BiasAdd` sequences that take a second added input
(`num_args == 2`, four data inputs). -/
def fusedConv2DBiasAddSeqs (fo : List String) : Bool :=
  fo = ["BiasAdd", "Add", "Relu"] || fo = ["BiasAdd", "Add"] ||
  fo = ["BiasAdd", "Add", "LeakyRelu"]

/-- The literal allow-list tail of `TranslateFusedConv2DOp`: the four
`FusedBatchNorm`-led sequences. -/
def fusedConv2DBatchNormSeqs (fo : List String) : Bool :=
  fo = ["FusedBatchNorm"] || fo = ["FusedBatchNorm", "Relu"] ||
  fo = ["FusedBatchNorm", "Relu6"] || fo = ["FusedBatchNorm", "LeakyRelu"]

/-- The `CreateNgConv` lambda of `TranslateFusedConv2DOp`: reads
`strides`/`dilations`/`padding`, validates the data format and the
batch/depth strides, and constructs the `opset::Convolution`. -/
def createNgConv (a : FusedNodeData) (isNhwc : Bool) (df : String) :
    Except Error (List String) :=
  match a.stridesAttr, a.dilationsAttr, a.paddingAttr with
  | some strides, some _, some _ =>
    if df ≠ "NHWC" && df ≠ "NCHW" then
      .error ⟨.invalidArgument, "Conv2D data format is neither NHWC nor NCHW"⟩
    else if strides.getD 0 0 ≠ 1 ||
        strides.getD (if isNhwc then 3 else 1) 0 ≠ 1 then
      .error ⟨.invalidArgument,
        "Strides in batch and depth dimensions is not supported"⟩
    else
      .ok ["Convolution"]
  | _, _, _ =>
    .error ⟨.invalidArgument, "missing strides, dilations or padding attribute"⟩

/-- The activation tail of a `BiasAdd`-led `_FusedConv2D` sequence: the
primitives constructed after the bias `Add` for each literal sequence. -/
def fusedConv2DBiasTail (a : FusedNodeData) (fo : List String) :
    Except Error (List String) :=
  if fo = ["BiasAdd", "Relu"] then .ok ["Relu"]
  else if fo = ["BiasAdd", "Relu6"] then .ok ["Clamp"]
  else if fo = ["BiasAdd", "LeakyRelu"] then
    match a.leakyreluAlphaAttr with
    | none => .error ⟨.invalidArgument, "missing leakyrelu_alpha attribute"⟩
    | some _ => .ok ["Constant", "Multiply", "Maximum"]
  else if fo = ["BiasAdd", "Elu"] then
    -- the source reads the `leakyrelu_alpha` attribute for the Elu case too
    match a.leakyreluAlphaAttr with
    | none => .error ⟨.invalidArgument, "missing leakyrelu_alpha attribute"⟩
    | some _ => .ok ["Elu"]
  else if fo = ["BiasAdd", "Add", "Relu"] then .ok ["Add", "Relu"]
  else if fo = ["BiasAdd", "Add"] then .ok ["Add"]
  else if fo = ["BiasAdd", "Add", "LeakyRelu"] then
    match a.leakyreluAlphaAttr with
    | none => .error ⟨.invalidArgument, "missing leakyrelu_alpha attribute"⟩
    | some _ => .ok ["Add", "Constant", "Multiply", "Maximum"]
  else .ok []  -- plain ["BiasAdd"]

/-- The activation tail of a `FusedBatchNorm`-led `_FusedConv2D` sequence. -/
def fusedConv2DBatchNormTail (a : FusedNodeData) (fo : List String) :
    Except Error (List String) :=
  if fo = ["FusedBatchNorm", "Relu"] then .ok ["Relu"]
  else if fo = ["FusedBatchNorm", "Relu6"] then .ok ["Clamp"]
  else if fo = ["FusedBatchNorm", "LeakyRelu"] then
    match a.leakyreluAlphaAttr with
    | none => .error ⟨.invalidArgument, "missing leakyrelu_alpha attribute"⟩
    | some _ => .ok ["Constant", "Multiply", "Maximum"]
  else .ok []  -- plain ["FusedBatchNorm"]

/-- Model of `TranslateFusedConv2DOp`: dispatch on the literal `fused_ops` sequence.
A sequence in neither allow-list is the explicit `Unimplemented` failure. -/
def translateFusedConv2DOp (a : FusedNodeData) :
    Except Error (List String) :=
  match a.numArgsAttr, a.fusedOpsAttr, a.dataFormatAttr with
  | some numArgs, some fusedOps, some df =>
    let isNhwc := df = "NHWC"
    if fusedConv2DBiasSeqs fusedOps then
      let needsTwoArgs := fusedConv2DBiasAddSeqs fusedOps
      if needsTwoArgs && numArgs ≠ 2 then
        .error ⟨.invalidArgument, "FusedConv2DBiasAdd has incompatible num_args"⟩
      else if !needsTwoArgs && numArgs ≠ 1 then
        .error ⟨.invalidArgument, "FusedConv2DBiasAdd has incompatible num_args"⟩
      else if a.numInputs ≠ (if needsTwoArgs then 4 else 3) then
        .error ⟨.invalidArgument, "\"" ++ a.name ++ "\" requires inputs"⟩
      else
          match createNgConv a isNhwc df with
          | .error e => .error e
          | .ok conv =>
            if a.biasShape.length ≠ 1 then
              .error ⟨.invalidArgument,
                "Bias argument to BiasAdd does not have one dimension"⟩
            else
              match fusedConv2DBiasTail a fusedOps with
              | .error e => .error e
              | .ok tail => .ok (conv ++ ["Reshape", "Add"] ++ tail)
    else if fusedConv2DBatchNormSeqs fusedOps then
      if numArgs ≠ 4 then
        .error ⟨.invalidArgument,
          "FusedConv2D with FusedBatchNorm has incompatible num_args"⟩
      else if a.numInputs ≠ 6 then
        .error ⟨.invalidArgument, "\"" ++ a.name ++ "\" requires inputs"⟩
      else
        match createNgConv a isNhwc df with
        | .error e => .error e
        | .ok conv =>
          match a.epsilonAttr with
          | none => .error ⟨.invalidArgument, "missing epsilon attribute"⟩
          | some _ =>
            match fusedConv2DBatchNormTail a fusedOps with
            | .error e => .error e
            | .ok tail => .ok (conv ++ ["BatchNormInference"] ++ tail)
    else
      .error ⟨.unimplemented,
        "Unsupported _FusedConv2D " ++ String.intercalate "," fusedOps⟩
  | _, _, _ =>
    .error ⟨.invalidArgument, "missing num_args, fused_ops or data_format attribute"⟩

/-- Model of `TranslateFusedDepthwiseConv2dNativeOp`: only the two literal sequences
`["BiasAdd"]` and `["BiasAdd", "Relu6"]` are allow-listed; anything else is
the explicit `Unimplemented` failure. -/
def translateFusedDepthwiseConv2dNativeOp (a : FusedNodeData) :
    Except Error (List String) :=
  match a.numArgsAttr, a.fusedOpsAttr, a.dataFormatAttr with
  | some numArgs, some fusedOps, some df =>
    if fusedOps = ["BiasAdd"] || fusedOps = ["BiasAdd", "Relu6"] then
      if numArgs ≠ 1 then
        .error ⟨.invalidArgument,
          "FusedDepthwiseConv2dNativeBiasAdd has incompatible num_args"⟩
      else if a.numInputs ≠ 3 then
        .error ⟨.invalidArgument, "\"" ++ a.name ++ "\" requires inputs"⟩
      else
        match a.stridesAttr, a.dilationsAttr, a.paddingAttr with
        | some _, some _, some _ =>
          if df ≠ "NHWC" && df ≠ "NCHW" then
            .error ⟨.invalidArgument,
              "DepthwiseConv2D data format is neither NHWC nor NCHW"⟩
          else if a.biasShape.length ≠ 1 then
            .error ⟨.invalidArgument,
              "Bias argument to BiasAdd does not have one dimension"⟩
          else if fusedOps = ["BiasAdd", "Relu6"] then
            .ok ["GroupConvolution", "Reshape", "Add", "Clamp"]
          else
            .ok ["GroupConvolution", "Reshape", "Add"]
        | _, _, _ =>
          .error ⟨.invalidArgument,
            "missing strides, dilations or padding attribute"⟩
    else
      .error ⟨.unimplemented,
        "Unsupported _FusedDepthwiseConv2dNative " ++
        String.intercalate "," fusedOps⟩
  | _, _, _ =>
    .error ⟨.invalidArgument, "missing num_args, fused_ops or data_format attribute"⟩

/-- Model of `TranslateFusedMatMulOp`: there is no literal allow-list check — the
handler dispatches on the *length* of `fused_ops` alone (any single-element
sequence is lowered as the BiasAdd fusion), on `fused_ops[1]` for length two,
and every remaining case is an `Internal` error, not `Unimplemented`. -/
def translateFusedMatMulOp (a : FusedNodeData) :
    Except Error (List String) :=
  match a.numArgsAttr, a.fusedOpsAttr, a.transposeAAttr, a.transposeBAttr with
  | some _, some fusedOps, some _, some _ =>
    if a.numInputs ≠ 3 then
      .error ⟨.invalidArgument, "\"" ++ a.name ++ "\" requires inputs"⟩
    else if a.biasShape.length ≠ 1 then
      .error ⟨.invalidArgument,
        "Bias argument to BiasAdd does not have one dimension"⟩
    else if fusedOps.length = 1 then
      .ok ["MatMul", "Add"]
    else if fusedOps.length = 2 then
      if fusedOps.getD 1 "" = "Relu" then .ok ["MatMul", "Add", "Relu"]
      else if fusedOps.getD 1 "" = "Relu6" then .ok ["MatMul", "Add", "Clamp"]
      else
        .error ⟨.internal,
          "Expected activation to be Relu or Relu6 but got " ++
          fusedOps.getD 1 ""⟩
    else
      .error ⟨.internal, "Unsupported combination"⟩
  | _, _, _, _ =>
    .error ⟨.invalidArgument, "missing attribute on _FusedMatMul"⟩

/-! ## Verified properties -/

/-- C10: the five-argument `Builder::TranslateGraph` overload invokes the
full translation but discards the inner call's status and returns OK
unconditionally — for every input (the universally quantified part), and in
particular for graphs whose translation fails internally (the exhibited
input, whose inner translation errors while the overload still reports
success). -/
theorem translateGraphNoResultList_always_ok :
    (∀ (env : TranslateEnv) (inputs : List (List Nat)) (smap : StaticInputMap)
        (nodes : List TFNode) (name : String),
      (translateGraphNoResultList env inputs smap nodes name).1 = .ok ())
    ∧ (∃ (env : TranslateEnv) (nodes : List TFNode) (e : Error),
        translateGraph env [] [] nodes "f" [] = .error e ∧
        (translateGraphNoResultList env [] [] nodes "f").1 = .ok ()) := by
  constructor
  · intro env inputs smap nodes name
    unfold translateGraphNoResultList
    cases translateGraph env inputs smap nodes name [] <;> rfl
  · refine ⟨⟨[], id, true, fun _ _ v => v⟩, [⟨"x", "FooBarOp",
      none, none, none, none, none, none, []⟩],
      ⟨.invalidArgument, "No translation handler registered for op: x (FooBarOp)"⟩,
      rfl, rfl⟩

/-- C7: static value resolution succeeds only when the producing node is a
formal-input marker (`_Arg`) or a constant node; for an `_Arg` the value is
read from the StaticInputMap slot at the declared index and an empty slot is
an `Internal` error; any other producer kind yields an `Internal` error. -/
theorem getStaticNodeTensor_spec :
    (∀ (node : TFNode) (smap : StaticInputMap) (t : Tensor),
        getStaticNodeTensor node smap = .ok t →
        node.isArg = true ∨ node.typeString = "Const")
    ∧ (∀ (node : TFNode) (smap : StaticInputMap) (idx : Nat) (t : Tensor),
        node.isArg = true → node.indexAttr = some idx →
        smap.getD idx none = some t →
        getStaticNodeTensor node smap = .ok t)
    ∧ (∀ (node : TFNode) (smap : StaticInputMap) (idx : Nat),
        node.isArg = true → node.indexAttr = some idx →
        smap.getD idx none = none →
        getStaticNodeTensor node smap = .error ⟨.internal,
          "GetStaticNodeTensor called on _Arg but input tensor is missing from static input map"⟩)
    ∧ (∀ (node : TFNode) (smap : StaticInputMap),
        node.isArg = false → node.typeString ≠ "Const" →
        getStaticNodeTensor node smap = .error ⟨.internal,
          "GetStaticNodeTensor called on node with type " ++ node.typeString ++
          "; _Arg or Const expected"⟩) := by
  refine ⟨?_, ?_, ?_, ?_⟩
  · intro node smap t h
    unfold getStaticNodeTensor at h
    by_cases harg : node.isArg
    · exact Or.inl harg
    · by_cases hconst : node.typeString = "Const"
      · exact Or.inr hconst
      · simp [harg, hconst] at h
  · intro node smap idx t harg hidx hslot
    rw [List.getD_eq_getElem?_getD] at hslot
    simp [getStaticNodeTensor, harg, hidx, hslot]
  · intro node smap idx harg hidx hslot
    rw [List.getD_eq_getElem?_getD] at hslot
    simp [getStaticNodeTensor, harg, hidx, hslot]
  · intro node smap harg hconst
    simp [getStaticNodeTensor, harg, hconst]

/-- Witness for C7: a concrete `_Arg` node resolves to the concrete tensor in
its static-input-map slot. -/
theorem getStaticNodeTensor_spec_witness :
    getStaticNodeTensor
      { name := "a", typeString := "_Arg", indexAttr := some 0 }
      [some ⟨.DT_FLOAT, [1], [7]⟩] = .ok ⟨.DT_FLOAT, [1], [7]⟩ :=
  getStaticNodeTensor_spec.2.1
    { name := "a", typeString := "_Arg", indexAttr := some 0 }
    [some ⟨.DT_FLOAT, [1], [7]⟩] 0 ⟨.DT_FLOAT, [1], [7]⟩ rfl rfl rfl

/-! ### Facts about the fill-forward loop -/

theorem fillValsFrom_length (vals : List Int) :
    ∀ (rem i : Nat) (last : Int), (fillValsFrom vals rem i last).length = rem := by
  intro rem
  induction rem with
  | zero => intro i last; rfl
  | succ m ih =>
    intro i last
    unfold fillValsFrom
    split
    · simp [ih]
    · split <;> simp [ih]

theorem fillValsFrom_getD (vals : List Int) (hne : vals ≠ []) :
    ∀ (rem i : Nat) (last : Int) (j : Nat),
    (vals.length ≤ i → last = vals.getD (vals.length - 1) 0) →
    j < rem →
    (fillValsFrom vals rem i last).getD j 0 =
      if i + j < vals.length then vals.getD (i + j) 0
      else vals.getD (vals.length - 1) 0 := by
  intro rem
  induction rem with
  | zero => intro i last j _ hj; omega
  | succ m ih =>
    intro i last j hlast hj
    have hk : ¬(vals.length = 0) := by
      simp [List.length_eq_zero]
      exact hne
    unfold fillValsFrom
    rw [if_neg hk]
    by_cases hi : i < vals.length
    · rw [if_pos hi]
      cases j with
      | zero =>
        simp only [List.getD_cons_zero]
        rw [if_pos (by omega)]
        simp
      | succ j' =>
        have harith : i + 1 + j' = i + (j' + 1) := by omega
        simp only [List.getD_cons_succ]
        rw [ih (i + 1) (vals.getD i 0) j' ?_ (by omega), harith]
        intro hle
        have : i = vals.length - 1 := by omega
        rw [this]
    · rw [if_neg hi]
      cases j with
      | zero =>
        simp only [List.getD_cons_zero]
        rw [if_neg (by omega)]
        exact hlast (by omega)
      | succ j' =>
        have harith : i + 1 + j' = i + (j' + 1) := by omega
        simp only [List.getD_cons_succ]
        rw [ih (i + 1) last j' (fun _ => hlast (by omega)) (by omega), harith]

/-- C6: when a constant node's payload carries no raw byte buffer and its
per-type repeated value list holds `k` values with `0 < k < n` (`n` the
declared shape's element count), the decoded vector holds the listed value at
every index `i < k` and repeats the `k`-th (last successfully read) value at
every index `i ≥ k` — fill-forward, not zero-fill. -/
theorem valuesFromConstNode_fill_forward (T : DataType) (node : TFNode)
    (tensor : TensorProto) (k n : Nat)
    (hty : node.typeString = "Const")
    (hdt : node.constDtypeAttr = some T)
    (hval : node.valueAttr = some tensor)
    (hcontent : tensor.tensorContent = [])
    (hdims : tensor.shapeDims.all (0 ≤ ·))
    (hn : ((tensor.shapeDims.map Int.toNat).prod) = n)
    (hk : tensor.vals.length = k)
    (hk0 : 0 < k) (hkn : k < n)
    (hsupp : valuesFromConstSupported T = true) :
    ∃ values, valuesFromConstNode T node = .ok (tensor.shapeDims, values) ∧
      values.length = n ∧
      (∀ i, i < n →
        values.getD i 0 =
          if i < k then tensor.vals.getD i 0 else tensor.vals.getD (k - 1) 0) := by
  have hne : tensor.vals ≠ [] := by
    intro h
    rw [h] at hk
    simp at hk
    omega
  refine ⟨fillVals tensor.vals n, ?_, ?_, ?_⟩
  · have hfastB : (tensor.vals ≠ [] && tensor.hasShape &&
        decide (tensor.shapeDims.length = 1) &&
        decide (tensor.shapeDims.getD 0 0 = (tensor.vals.length : Int)))
        = false := by
      by_cases hlen1 : tensor.shapeDims.length = 1
      · obtain ⟨d, hd⟩ := List.length_eq_one.mp hlen1
        -- the rank-1 fast path would need dim(0) = k, impossible since
        -- k < n and n = dim(0)
        have hdk : ¬((tensor.shapeDims[0]?).getD 0 = (tensor.vals.length : Int)) := by
          rw [hd, hk]
          simp only [List.getElem?_cons_zero, Option.getD_some]
          intro hdval
          rw [hd] at hn hdims
          simp only [List.map_cons, List.map_nil, List.prod_cons,
            List.prod_nil, mul_one] at hn
          rw [hdval] at hn
          simp at hn
          omega
        simp only [Bool.and_eq_false_iff, decide_eq_false_iff_not]
        refine Or.inr ?_
        rw [List.getD_eq_getElem?_getD]
        exact hdk
      · simp [hlen1]
    have hnegB : (tensor.shapeDims.any (fun d => decide (d < 0))) = false := by
      simp only [List.any_eq_false, decide_eq_true_eq]
      intro x hx
      simp only [List.all_eq_true, decide_eq_true_eq] at hdims
      have := hdims x hx
      omega
    simp only [valuesFromConstNode, hty, hdt, hval]
    rw [if_neg (by simp)]
    rw [if_neg (by simp : ¬(T ≠ T))]
    rw [if_neg (by rw [show (tensor.vals ≠ [] && tensor.hasShape &&
      decide (tensor.shapeDims.length = 1) &&
      decide (tensor.shapeDims.getD 0 0 = (tensor.vals.length : Int))) = false
      from hfastB]; simp)]
    rw [if_pos hcontent]
    rw [if_neg (by rw [show (tensor.shapeDims.any (fun d => decide (d < 0)))
      = false from hnegB]; simp)]
    rw [if_pos hsupp, hn]
  · rw [fillVals, fillValsFrom_length]
  · intro i hi
    rw [fillVals, fillValsFrom_getD tensor.vals hne n 0 0 i
      (fun habs => absurd habs (by omega)) hi]
    rw [hk]
    simp

/-- Witness for C6: a constant with declared shape `[5]` (n = 5) and value
list `[3, 8]` (k = 2) decodes to `[3, 8, 8, 8, 8]`: listed values first, the
last read value filled forward, no zero-fill. -/
theorem valuesFromConstNode_fill_forward_witness :
    valuesFromConstNode .DT_INT32
      { name := "c", typeString := "Const",
        constDtypeAttr := some .DT_INT32,
        valueAttr := some ⟨.DT_INT32, true, [5], [], [3, 8]⟩ } =
      .ok ([5], [3, 8, 8, 8, 8]) := by
  obtain ⟨values, hrun, hlen, hget⟩ :=
    valuesFromConstNode_fill_forward .DT_INT32
      { name := "c", typeString := "Const",
        constDtypeAttr := some .DT_INT32,
        valueAttr := some ⟨.DT_INT32, true, [5], [], [3, 8]⟩ }
      ⟨.DT_INT32, true, [5], [], [3, 8]⟩ 2 5 rfl rfl rfl rfl (by decide)
      (by decide) rfl (by decide) (by decide) (by decide)
  rw [hrun]
  have hv : values = [3, 8, 8, 8, 8] := by
    have h0 := hget 0 (by decide)
    have h1 := hget 1 (by decide)
    have h2 := hget 2 (by decide)
    have h3 := hget 3 (by decide)
    have h4 := hget 4 (by decide)
    simp at h0 h1 h2 h3 h4
    match values, hlen with
    | [a, b, c, d, e], _ =>
      simp [List.getD] at h0 h1 h2 h3 h4
      simp [h0, h1, h2, h3, h4]
  rw [hv]

theorem fillVals_self (vals : List Int) (hne : vals ≠ []) :
    fillVals vals vals.length = vals := by
  have hlen : (fillVals vals vals.length).length = vals.length :=
    fillValsFrom_length vals vals.length 0 0
  refine List.ext_getElem hlen ?_
  intro i h1 h2
  have hgd := fillValsFrom_getD vals hne vals.length 0 0 i
    (fun h => absurd h (by omega)) (by omega)
  rw [Nat.zero_add, if_pos h2] at hgd
  calc (fillVals vals vals.length)[i]
      = (fillVals vals vals.length).getD i 0 := by
        rw [List.getD_eq_getElem?_getD, List.getElem?_eq_getElem h1]
        rfl
    _ = vals.getD i 0 := hgd
    _ = vals[i] := by
        rw [List.getD_eq_getElem?_getD, List.getElem?_eq_getElem h2]
        rfl

/-- C8: constant round-trip — for every (TF type, target element type) pair
registered in the constant materializer's table, a constant node built from a
given value list decodes (through the registered `MakeConstOp` instantiation,
also reachable via `TranslateConstOp`'s dispatch) to exactly that value list,
and re-reading the same node through the Static Value Resolver at the same
element type yields the bit-identical list. -/
theorem const_round_trip (dtype : DataType) (et : NgElemType)
    (vals : List Int) (smap : StaticInputMap)
    (cast : DataType → DataType → Int → Int)
    (hfind : TF_NGRAPH_CONST_MAP.find? (fun p => p.1 = dtype) =
      some (dtype, et))
    (hne : vals ≠ []) :
    makeConstOp dtype et
        { name := "c", typeString := "Const", constDtypeAttr := some dtype,
          valueAttr := some ⟨dtype, true, [(vals.length : Int)], [], vals⟩ } =
      .ok ⟨et, [vals.length], vals⟩ ∧
    translateConstNode
        { name := "c", typeString := "Const", constDtypeAttr := some dtype,
          valueAttr := some ⟨dtype, true, [(vals.length : Int)], [], vals⟩ } =
      .ok ⟨et, [vals.length], vals⟩ ∧
    getStaticVectorOfNode cast dtype
        { name := "c", typeString := "Const", constDtypeAttr := some dtype,
          valueAttr := some ⟨dtype, true, [(vals.length : Int)], [], vals⟩ }
        smap =
      .ok vals := by
  have hmake : makeConstOp dtype et
      { name := "c", typeString := "Const", constDtypeAttr := some dtype,
        valueAttr := some ⟨dtype, true, [(vals.length : Int)], [], vals⟩ } =
      .ok ⟨et, [vals.length], vals⟩ := by
    have hfast : valuesFromConstNode dtype
        { name := "c", typeString := "Const", constDtypeAttr := some dtype,
          valueAttr := some ⟨dtype, true, [(vals.length : Int)], [], vals⟩ } =
        .ok ([(vals.length : Int)], vals) := by
      simp [valuesFromConstNode, hne]
    simp [makeConstOp, hfast]
  refine ⟨hmake, ?_, ?_⟩
  · simp [translateConstNode, hfind, hmake]
  · have hproto : fromProto ⟨dtype, true, [(vals.length : Int)], [], vals⟩ =
        some ⟨dtype, [vals.length], vals⟩ := by
      simp [fromProto, hne]
      exact fillVals_self vals hne
    simp [getStaticVectorOfNode, getStaticNodeTensor, TFNode.isArg, hproto,
      tensorDataToVector]

/-- Witness for C8: the round trip at `DT_FLOAT`/`f32` with value list
`[1, 2, 3]`. -/
theorem const_round_trip_witness :
    makeConstOp .DT_FLOAT .f32
        { name := "c", typeString := "Const", constDtypeAttr := some .DT_FLOAT,
          valueAttr := some ⟨.DT_FLOAT, true, [3], [], [1, 2, 3]⟩ } =
      .ok ⟨.f32, [3], [1, 2, 3]⟩ ∧
    getStaticVectorOfNode (fun _ _ v => v) .DT_FLOAT
        { name := "c", typeString := "Const", constDtypeAttr := some .DT_FLOAT,
          valueAttr := some ⟨.DT_FLOAT, true, [3], [], [1, 2, 3]⟩ } [] =
      .ok [1, 2, 3] := by
  have h := const_round_trip .DT_FLOAT .f32 [1, 2, 3] []
    (fun _ _ v => v) rfl (by decide)
  exact ⟨h.1, h.2.2⟩

theorem sameOutput_self (a : NgOut) : sameOutput a a = true := by
  simp [sameOutput]

theorem addNAccum_tags (opName : String) :
    ∀ (rest : List NgOut) (freshId : Nat) (acc : NgOut), rest ≠ [] →
    (addNAccum opName freshId acc rest).tags = [opName]
  | [], _, _, h => absurd rfl h
  | [_], _, _, _ => by
    simp [addNAccum, constructNgNode, setTracingInfo]
  | _ :: c :: rest, freshId, acc, _ => by
    rw [addNAccum]
    exact addNAccum_tags opName (c :: rest) (freshId + 1) _ (by simp)

/-- Counterexample to C9 as stated: the claim allows a missing fresh tag only
for unary/binary identity folds and the `Identity` pass-through, and demands
a tag on every newly constructed node — but (a) `TranslateAddNOp` with a
single input (neither of the claimed exceptions) saves its input with no tag
derived from the AddN node's name `addn1`, and (b) the `reshape_pattern`
constant of `TranslateFusedConv2DOp` is a newly constructed target node that
carries no provenance tag at all (bare `make_shared`, no
`SetTracingInfo`). -/
theorem handler_nodes_not_always_tagged :
    translateAddNOp 7 [("p", [⟨5, 0, .handlerMade, .f32, none, ["p"]⟩])]
      { name := "addn1", typeString := "AddN", inputs := [("p", 0)] } =
      .ok [("p", [⟨5, 0, .handlerMade, .f32, none, ["p"]⟩]),
           ("addn1", [⟨5, 0, .handlerMade, .f32, none, ["p"]⟩])] ∧
    ("addn1" ∉ (["p"] : List String)) ∧
    (fusedConv2DReshapePatternConstant 4 16 9).tags = [] :=
  ⟨rfl, by decide, rfl⟩

/-- C9 amended: target values constructed through `ConstructNgNode` always
receive a provenance tag derived from the source node's name (1), and the
unary/binary helpers re-tag any result that is not literally one of their
inputs (2), (4), while an identity fold (3), (5) or the pure pass-through
`Identity` handler (6) sets no fresh tag, so the value retains its upstream
tags.  The blanket claim fails beyond that scope: `TranslateAddNOp` with a
single input is a pass-through outside the claimed exceptions, saving its
input with no fresh tag (7) — only with two or more inputs is its saved
value a freshly tagged construction (8) — and handlers also build auxiliary
nodes with bare `make_shared` that never receive any tag, such as the
`_FusedConv2D` reshape-pattern constant (9). -/
theorem provenance_tagging :
    (∀ (opName : String) (raw : NgOut),
      (constructNgNode opName raw).tags = raw.tags ++ [opName])
    ∧ (∀ (om : OpMap) (op : TFNode) (f : NgOut → NgOut) (input : NgOut),
        op.inputs.length = 1 → getInputNode om op 0 = .ok input →
        sameOutput (f input) input = false →
        translateUnaryOp om op f =
          .ok (saveNgOp om op.name (setTracingInfo op.name (f input))))
    ∧ (∀ (om : OpMap) (op : TFNode) (f : NgOut → NgOut) (input : NgOut),
        op.inputs.length = 1 → getInputNode om op 0 = .ok input →
        f input = input →
        translateUnaryOp om op f = .ok (saveNgOp om op.name input))
    ∧ (∀ (om : OpMap) (op : TFNode) (f : NgOut → NgOut → NgOut)
          (lhs rhs : NgOut),
        op.inputs.length = 2 → getInputNode om op 0 = .ok lhs →
        getInputNode om op 1 = .ok rhs →
        sameOutput (f lhs rhs) lhs = false →
        sameOutput (f lhs rhs) rhs = false →
        translateBinaryOp om op f =
          .ok (saveNgOp om op.name (setTracingInfo op.name (f lhs rhs))))
    ∧ (∀ (om : OpMap) (op : TFNode) (f : NgOut → NgOut → NgOut)
          (lhs rhs : NgOut),
        op.inputs.length = 2 → getInputNode om op 0 = .ok lhs →
        getInputNode om op 1 = .ok rhs →
        (f lhs rhs = lhs ∨ f lhs rhs = rhs) →
        translateBinaryOp om op f = .ok (saveNgOp om op.name (f lhs rhs)))
    ∧ (∀ (om : OpMap) (op : TFNode) (input : NgOut),
        op.inputs.length = 1 → getInputNode om op 0 = .ok input →
        translateIdentityOp om op = .ok (saveNgOp om op.name input))
    ∧ (∀ (om : OpMap) (op : TFNode) (input : NgOut) (freshId : Nat),
        op.inputs.length = 1 → getInputNode om op 0 = .ok input →
        translateAddNOp freshId om op = .ok (saveNgOp om op.name input))
    ∧ (∀ (opName : String) (freshId : Nat) (acc : NgOut)
          (rest : List NgOut), rest ≠ [] →
        (addNAccum opName freshId acc rest).tags = [opName])
    ∧ (∀ (convRank biasDim freshId : Nat),
        (fusedConv2DReshapePatternConstant convRank biasDim freshId).tags =
          []) := by
  refine ⟨?_, ?_, ?_, ?_, ?_, ?_, ?_, ?_, ?_⟩
  · intro opName raw
    rfl
  · intro om op f input hlen hget hfresh
    simp [translateUnaryOp, validateInputCount, hlen, hget, hfresh]
  · intro om op f input hlen hget hfold
    simp [translateUnaryOp, validateInputCount, hlen, hget, hfold,
      sameOutput_self]
  · intro om op f lhs rhs hlen hget0 hget1 hfresh0 hfresh1
    simp [translateBinaryOp, validateInputCount, hlen, hget0, hget1,
      hfresh0, hfresh1]
  · intro om op f lhs rhs hlen hget0 hget1 hfold
    rcases hfold with h | h <;>
      simp [translateBinaryOp, validateInputCount, hlen, hget0, hget1, h,
        sameOutput_self]
  · intro om op input hlen hget
    simp [translateIdentityOp, validateInputCount, hlen, hget]
  · intro om op input freshId hlen hget
    simp [translateAddNOp, hlen, getInputNodesAux, hget, addNAccum]
  · intro opName freshId acc rest hne
    exact addNAccum_tags opName rest freshId acc hne
  · intro convRank biasDim freshId
    rfl

/-- Witness for C9 (amended): a fresh unary construction is tagged with the
source node's name; the `Identity` handler stores the upstream value with its
upstream tag untouched; and a single-input `AddN` likewise passes its input
through untagged. -/
theorem provenance_tagging_witness :
    translateUnaryOp [("p", [⟨5, 0, .handlerMade, .f32, none, ["p"]⟩])]
      { name := "abs1", typeString := "Abs", inputs := [("p", 0)] }
      (fun _ => ⟨6, 0, .handlerMade, .f32, none, []⟩) =
      .ok [("p", [⟨5, 0, .handlerMade, .f32, none, ["p"]⟩]),
           ("abs1", [⟨6, 0, .handlerMade, .f32, none, ["abs1"]⟩])] ∧
    translateIdentityOp [("p", [⟨5, 0, .handlerMade, .f32, none, ["p"]⟩])]
      { name := "id1", typeString := "Identity", inputs := [("p", 0)] } =
      .ok [("p", [⟨5, 0, .handlerMade, .f32, none, ["p"]⟩]),
           ("id1", [⟨5, 0, .handlerMade, .f32, none, ["p"]⟩])] ∧
    translateAddNOp 3 [("p", [⟨5, 0, .handlerMade, .f32, none, ["p"]⟩])]
      { name := "addn2", typeString := "AddN", inputs := [("p", 0)] } =
      .ok [("p", [⟨5, 0, .handlerMade, .f32, none, ["p"]⟩]),
           ("addn2", [⟨5, 0, .handlerMade, .f32, none, ["p"]⟩])] := by
  refine ⟨?_, ?_, ?_⟩
  · exact provenance_tagging.2.1
      [("p", [⟨5, 0, .handlerMade, .f32, none, ["p"]⟩])]
      { name := "abs1", typeString := "Abs", inputs := [("p", 0)] }
      (fun _ => ⟨6, 0, .handlerMade, .f32, none, []⟩)
      ⟨5, 0, .handlerMade, .f32, none, ["p"]⟩ rfl rfl rfl
  · exact provenance_tagging.2.2.2.2.2.1
      [("p", [⟨5, 0, .handlerMade, .f32, none, ["p"]⟩])]
      { name := "id1", typeString := "Identity", inputs := [("p", 0)] }
      ⟨5, 0, .handlerMade, .f32, none, ["p"]⟩ rfl rfl
  · exact provenance_tagging.2.2.2.2.2.2.1
      [("p", [⟨5, 0, .handlerMade, .f32, none, ["p"]⟩])]
      { name := "addn2", typeString := "AddN", inputs := [("p", 0)] }
      ⟨5, 0, .handlerMade, .f32, none, ["p"]⟩ 3 rfl rfl

/-- Counterexample to C2 as stated: for `_FusedMatMul`, the sequence
`["Relu", "BiasAdd"]` — a permutation of the allow-listed
`["BiasAdd", "Relu"]` that is not literally present — fails with an
`Internal` error, not the `Unimplemented` error the claim requires. -/
theorem fusedMatMul_permutation_not_unimplemented :
    translateFusedMatMulOp
      { name := "mm", numInputs := 3, numArgsAttr := some 1,
        fusedOpsAttr := some ["Relu", "BiasAdd"],
        transposeAAttr := some false, transposeBAttr := some false,
        biasShape := [4] } =
      .error ⟨.internal,
        "Expected activation to be Relu or Relu6 but got BiasAdd"⟩ ∧
    ErrorKind.internal ≠ ErrorKind.unimplemented :=
  ⟨rfl, by decide⟩

/-- C2 amended: for `_FusedConv2D` and `_FusedDepthwiseConv2dNative` the
claim holds as stated — each literal allow-listed `fused_ops` sequence lowers
successfully on a well-formed node and any other sequence (in particular any
permutation not literally present) fails with `Unimplemented` — but
`_FusedMatMul` has no literal allow-list: it dispatches on sequence length
alone, so any single-element sequence lowers as the BiasAdd fusion, a
two-element sequence lowers exactly when its second element is `Relu` or
`Relu6`, and every other sequence fails with an `Internal` error rather than
`Unimplemented`. -/
theorem fused_ops_allow_list :
    -- (1) _FusedConv2D, sequence in neither allow-list: Unimplemented
    (∀ (a : FusedNodeData) (na : Nat) (fo : List String) (df : String),
      a.numArgsAttr = some na → a.fusedOpsAttr = some fo →
      a.dataFormatAttr = some df →
      fusedConv2DBiasSeqs fo = false → fusedConv2DBatchNormSeqs fo = false →
      translateFusedConv2DOp a = .error ⟨.unimplemented,
        "Unsupported _FusedConv2D " ++ String.intercalate "," fo⟩)
    -- (2) _FusedConv2D, each literal BiasAdd-led sequence lowers
    ∧ (∀ (a : FusedNodeData) (fo : List String) (strides : List Int)
          (alpha : Int),
      a.fusedOpsAttr = some fo → fusedConv2DBiasSeqs fo = true →
      a.numArgsAttr = some (if fusedConv2DBiasAddSeqs fo then 2 else 1) →
      a.numInputs = (if fusedConv2DBiasAddSeqs fo then 4 else 3) →
      a.dataFormatAttr = some "NHWC" →
      a.stridesAttr = some strides → a.dilationsAttr = some [1, 1, 1, 1] →
      a.paddingAttr = some "VALID" →
      strides.getD 0 0 = 1 → strides.getD 3 0 = 1 →
      a.leakyreluAlphaAttr = some alpha →
      a.biasShape.length = 1 →
      ∃ chain, translateFusedConv2DOp a = .ok chain)
    -- (3) _FusedConv2D, each literal FusedBatchNorm-led sequence lowers
    ∧ (∀ (a : FusedNodeData) (fo : List String) (strides : List Int)
          (alpha eps : Int),
      a.fusedOpsAttr = some fo → fusedConv2DBatchNormSeqs fo = true →
      a.numArgsAttr = some 4 → a.numInputs = 6 →
      a.dataFormatAttr = some "NHWC" →
      a.stridesAttr = some strides → a.dilationsAttr = some [1, 1, 1, 1] →
      a.paddingAttr = some "VALID" →
      strides.getD 0 0 = 1 → strides.getD 3 0 = 1 →
      a.leakyreluAlphaAttr = some alpha → a.epsilonAttr = some eps →
      ∃ chain, translateFusedConv2DOp a = .ok chain)
    -- (4) _FusedDepthwiseConv2dNative, each allow-listed sequence lowers
    ∧ (∀ (a : FusedNodeData) (fo : List String),
      a.fusedOpsAttr = some fo →
      (fo = ["BiasAdd"] ∨ fo = ["BiasAdd", "Relu6"]) →
      a.numArgsAttr = some 1 → a.numInputs = 3 →
      a.dataFormatAttr = some "NHWC" →
      a.stridesAttr = some [1, 1, 1, 1] → a.dilationsAttr = some [1, 1, 1, 1] →
      a.paddingAttr = some "VALID" →
      a.biasShape.length = 1 →
      ∃ chain, translateFusedDepthwiseConv2dNativeOp a = .ok chain)
    -- (5) _FusedDepthwiseConv2dNative, any other sequence: Unimplemented
    ∧ (∀ (a : FusedNodeData) (na : Nat) (fo : List String) (df : String),
      a.numArgsAttr = some na → a.fusedOpsAttr = some fo →
      a.dataFormatAttr = some df →
      fo ≠ ["BiasAdd"] → fo ≠ ["BiasAdd", "Relu6"] →
      translateFusedDepthwiseConv2dNativeOp a = .error ⟨.unimplemented,
        "Unsupported _FusedDepthwiseConv2dNative " ++
        String.intercalate "," fo⟩)
    -- (6) _FusedMatMul, any single-element sequence lowers (even ones in no
    -- allow-list, e.g. ["Relu"])
    ∧ (∀ (a : FusedNodeData) (na : Nat) (fo : List String) (ta tb : Bool),
      a.numArgsAttr = some na → a.fusedOpsAttr = some fo →
      a.transposeAAttr = some ta → a.transposeBAttr = some tb →
      a.numInputs = 3 → a.biasShape.length = 1 →
      fo.length = 1 →
      translateFusedMatMulOp a = .ok ["MatMul", "Add"])
    -- (7) _FusedMatMul, two-element sequences: decided by the second
    -- element alone
    ∧ (∀ (a : FusedNodeData) (na : Nat) (fo : List String) (ta tb : Bool),
      a.numArgsAttr = some na → a.fusedOpsAttr = some fo →
      a.transposeAAttr = some ta → a.transposeBAttr = some tb →
      a.numInputs = 3 → a.biasShape.length = 1 →
      fo.length = 2 →
      (fo.getD 1 "" = "Relu" →
        translateFusedMatMulOp a = .ok ["MatMul", "Add", "Relu"]) ∧
      (fo.getD 1 "" = "Relu6" →
        translateFusedMatMulOp a = .ok ["MatMul", "Add", "Clamp"]) ∧
      (fo.getD 1 "" ≠ "Relu" → fo.getD 1 "" ≠ "Relu6" →
        translateFusedMatMulOp a = .error ⟨.internal,
          "Expected activation to be Relu or Relu6 but got " ++
          fo.getD 1 ""⟩))
    -- (8) _FusedMatMul, any other length: Internal error
    ∧ (∀ (a : FusedNodeData) (na : Nat) (fo : List String) (ta tb : Bool),
      a.numArgsAttr = some na → a.fusedOpsAttr = some fo →
      a.transposeAAttr = some ta → a.transposeBAttr = some tb →
      a.numInputs = 3 → a.biasShape.length = 1 →
      fo.length ≠ 1 → fo.length ≠ 2 →
      translateFusedMatMulOp a =
        .error ⟨.internal, "Unsupported combination"⟩) := by
  refine ⟨?_, ?_, ?_, ?_, ?_, ?_, ?_, ?_⟩
  · intro a na fo df hna hfo hdf h1 h2
    simp [translateFusedConv2DOp, hna, hfo, hdf, h1, h2]
  · intro a fo strides alpha hfo hseq hna hni hdf hstr hdil hpad hs0 hs3
      halpha hbias
    rw [List.getD_eq_getElem?_getD] at hs0 hs3
    have hconv : createNgConv a true "NHWC" = .ok ["Convolution"] := by
      simp [createNgConv, hstr, hdil, hpad, hs0, hs3]
    have hcases := hseq
    simp only [fusedConv2DBiasSeqs, Bool.or_eq_true, decide_eq_true_eq]
      at hcases
    rcases hcases with
      (((((((h | h) | h) | h) | h) | h) | h) | h) <;> subst h <;>
      simp only [fusedConv2DBiasAddSeqs] at hna hni <;>
      simp at hna hni <;>
      exact ⟨_, by
        simp [translateFusedConv2DOp, hna, hfo, hdf, hni, hconv,
          fusedConv2DBiasSeqs, fusedConv2DBiasAddSeqs, fusedConv2DBiasTail,
          hbias, halpha]
        try rfl⟩
  · intro a fo strides alpha eps hfo hseq hna hni hdf hstr hdil hpad hs0 hs3
      halpha heps
    rw [List.getD_eq_getElem?_getD] at hs0 hs3
    have hconv : createNgConv a true "NHWC" = .ok ["Convolution"] := by
      simp [createNgConv, hstr, hdil, hpad, hs0, hs3]
    have hcases := hseq
    simp only [fusedConv2DBatchNormSeqs, Bool.or_eq_true, decide_eq_true_eq]
      at hcases
    rcases hcases with ((h | h) | h) | h <;> subst h <;>
      exact ⟨_, by
        simp [translateFusedConv2DOp, hna, hfo, hdf, hni, hconv,
          fusedConv2DBiasSeqs, fusedConv2DBatchNormSeqs,
          fusedConv2DBatchNormTail, halpha, heps]
        try rfl⟩
  · intro a fo hfo hseq hna hni hdf hstr hdil hpad hbias
    rcases hseq with h | h <;> subst h <;>
      exact ⟨_, by
        simp [translateFusedDepthwiseConv2dNativeOp, hfo, hna, hni, hdf,
          hstr, hdil, hpad, hbias]
        try rfl⟩
  · intro a na fo df hna hfo hdf h1 h2
    simp [translateFusedDepthwiseConv2dNativeOp, hna, hfo, hdf, h1, h2]
  · intro a na fo ta tb hna hfo hta htb hni hbias hlen
    simp [translateFusedMatMulOp, hna, hfo, hta, htb, hni, hbias, hlen]
  · intro a na fo ta tb hna hfo hta htb hni hbias hlen
    have h1 : (1 : Nat) < fo.length := by omega
    refine ⟨?_, ?_, ?_⟩
    · intro hsec
      rw [List.getD_eq_getElem?_getD, List.getElem?_eq_getElem h1] at hsec
      simp only [Option.getD_some] at hsec
      simp [translateFusedMatMulOp, hna, hfo, hta, htb, hni, hbias, hlen,
        hsec]
    · intro hsec
      rw [List.getD_eq_getElem?_getD, List.getElem?_eq_getElem h1] at hsec
      simp only [Option.getD_some] at hsec
      simp [translateFusedMatMulOp, hna, hfo, hta, htb, hni, hbias, hlen,
        hsec]
    · intro hsec1 hsec2
      rw [List.getD_eq_getElem?_getD, List.getElem?_eq_getElem h1] at hsec1
      rw [List.getD_eq_getElem?_getD, List.getElem?_eq_getElem h1] at hsec2
      simp only [Option.getD_some] at hsec1 hsec2
      simp [translateFusedMatMulOp, hna, hfo, hta, htb, hni, hbias, hlen,
        hsec1, hsec2]
  · intro a na fo ta tb hna hfo hta htb hni hbias hlen1 hlen2
    simp [translateFusedMatMulOp, hna, hfo, hta, htb, hni, hbias, hlen1,
      hlen2]

/-- Witness for C2 (amended): a concrete `_FusedConv2D` node with the
non-listed sequence `["Relu", "BiasAdd"]` fails with the `Unimplemented`
catch, and a concrete allow-listed `["BiasAdd", "Relu"]` node lowers. -/
theorem fused_ops_allow_list_witness :
    translateFusedConv2DOp
      { name := "fc", numInputs := 3, numArgsAttr := some 1,
        fusedOpsAttr := some ["Relu", "BiasAdd"],
        dataFormatAttr := some "NHWC" } =
      .error ⟨.unimplemented, "Unsupported _FusedConv2D Relu,BiasAdd"⟩ ∧
    (∃ chain, translateFusedConv2DOp
      { name := "fc2", numInputs := 3, numArgsAttr := some 1,
        fusedOpsAttr := some ["BiasAdd", "Relu"],
        dataFormatAttr := some "NHWC",
        stridesAttr := some [1, 1, 1, 1],
        dilationsAttr := some [1, 1, 1, 1],
        paddingAttr := some "VALID",
        leakyreluAlphaAttr := some 1,
        biasShape := [4] } = .ok chain) := by
  constructor
  · exact fused_ops_allow_list.1
      { name := "fc", numInputs := 3, numArgsAttr := some 1,
        fusedOpsAttr := some ["Relu", "BiasAdd"],
        dataFormatAttr := some "NHWC" }
      1 ["Relu", "BiasAdd"] "NHWC" rfl rfl rfl (by decide) (by decide)
  · exact fused_ops_allow_list.2.1
      { name := "fc2", numInputs := 3, numArgsAttr := some 1,
        fusedOpsAttr := some ["BiasAdd", "Relu"],
        dataFormatAttr := some "NHWC",
        stridesAttr := some [1, 1, 1, 1],
        dilationsAttr := some [1, 1, 1, 1],
        paddingAttr := some "VALID",
        leakyreluAlphaAttr := some 1,
        biasShape := [4] }
      ["BiasAdd", "Relu"] [1, 1, 1, 1] 1 rfl (by decide) (by decide)
      (by decide) rfl rfl rfl rfl (by decide) (by decide) rfl (by decide)

theorem processOps_append (registry : List (String × Handler))
    (smap : StaticInputMap) :
    ∀ (l1 l2 : List TFNode) (om : OpMap),
    processOps registry smap (l1 ++ l2) om =
      match processOps registry smap l1 om with
      | .error e => .error e
      | .ok om' => processOps registry smap l2 om'
  | [], l2, om => rfl
  | op :: rest, l2, om => by
    simp only [List.cons_append, processOps]
    rcases hl : lookupHandler registry op.typeString with _ | f
    · rfl
    · rcases hf : f op smap om with e | om2
      · simp only [hf]
      · simp only [hf]
        exact processOps_append registry smap rest l2 om2

theorem lookupHandler_eq_none (registry : List (String × Handler))
    (ty : String) (h : ty ∉ registry.map Prod.fst) :
    lookupHandler registry ty = none := by
  unfold lookupHandler
  have hfind : registry.find? (fun p => p.1 = ty) = none := by
    rw [List.find?_eq_none]
    intro p hp
    simp only [decide_eq_true_eq]
    intro hpe
    exact h (List.mem_map.mpr ⟨p, hp, hpe⟩)
  rw [hfind]

/-- A registry with the real `TRANSLATE_OP_MAP` key set (the handlers
themselves are irrelevant to the registry-miss path). -/
def trivialRegistry : List (String × Handler) :=
  TRANSLATE_OP_MAP_KEYS.map (fun k => (k, fun _ _ om => .ok om))

/-- Counterexample to C1 as stated: translating a graph whose single interior
node has the unregistered kind `FooBarOp` aborts with an **InvalidArgument**
error (the registry-miss catch at `TRANSLATE_OP_MAP.at`), not the
`Unimplemented` error the claim requires — though the message does identify
the node's name and kind. -/
theorem missing_handler_is_invalid_argument :
    translateGraph { registry := trivialRegistry } [] []
      [{ name := "n1", typeString := "FooBarOp" }] "f" [] =
      .error ⟨.invalidArgument,
        "No translation handler registered for op: n1 (FooBarOp)"⟩ ∧
    ErrorKind.invalidArgument ≠ ErrorKind.unimplemented :=
  ⟨rfl, by decide⟩

/-- C1 amended: for every interior node whose operator-kind string has no
entry in `TRANSLATE_OP_MAP`, once translation reaches it (parameter binding
succeeded and the interior nodes ordered before it dispatched successfully),
`TranslateGraph` aborts the whole translation with an **InvalidArgument**
(not `Unimplemented`) error that identifies the failing node's name and
kind. -/
theorem translateGraph_missing_handler (env : TranslateEnv)
    (inputs : List (List Nat)) (smap : StaticInputMap) (nodes : List TFNode)
    (name : String) (tensors : List Tensor)
    (parms rets pre suf : List TFNode) (op : TFNode)
    (om0 : OpMap) (plist0 : List (Option ParamNode)) (om' : OpMap)
    (hpart : partitionNodes (getReversePostOrderByName nodes) =
      .ok (parms, rets, pre ++ op :: suf))
    (hkeys : env.registry.map Prod.fst = TRANSLATE_OP_MAP_KEYS)
    (hmiss : op.typeString ∉ TRANSLATE_OP_MAP_KEYS)
    (hparams : processParams env inputs tensors parms
      ([], List.replicate parms.length none) = .ok (om0, plist0))
    (hpre : processOps env.registry smap pre om0 = .ok om') :
    translateGraph env inputs smap nodes name tensors =
      .error ⟨.invalidArgument,
        "No translation handler registered for op: " ++ op.name ++ " (" ++
        op.typeString ++ ")"⟩ := by
  have hlook : lookupHandler env.registry op.typeString = none := by
    apply lookupHandler_eq_none
    rw [hkeys]
    exact hmiss
  unfold translateGraph translateGraphOrdered
  rw [hpart]
  simp only [hparams]
  rw [processOps_append env.registry smap pre (op :: suf) om0]
  simp only [hpre]
  simp only [processOps, hlook]

/-- Witness for C1 (amended): the concrete one-node graph instantiates the
amended theorem's hypotheses. -/
theorem translateGraph_missing_handler_witness :
    translateGraph { registry := trivialRegistry } [] []
      [{ name := "n2", typeString := "NotAnOp" }] "g" [] =
      .error ⟨.invalidArgument,
        "No translation handler registered for op: n2 (NotAnOp)"⟩ := by
  apply translateGraph_missing_handler { registry := trivialRegistry }
    [] [] [{ name := "n2", typeString := "NotAnOp" }] "g" []
    [] [] [] [] { name := "n2", typeString := "NotAnOp" } [] [] []
  · rfl
  · rfl
  · decide
  · rfl
  · rfl

theorem lookupOpMap_saveNgOp_fresh (om : OpMap) (k : String) (v : NgOut)
    (h : lookupOpMap om k = none) :
    lookupOpMap (saveNgOp om k v) k = some [v] := by
  induction om with
  | nil => simp [saveNgOp, lookupOpMap]
  | cons p rest ih =>
    obtain ⟨k', vs⟩ := p
    by_cases hk : k' = k
    · exfalso
      simp [lookupOpMap, List.find?_cons, hk] at h
    · have hrest : lookupOpMap rest k = none := by
        simpa [lookupOpMap, List.find?_cons, hk] using h
      simp [saveNgOp, lookupOpMap, List.find?_cons, hk] at *
      simpa [lookupOpMap] using ih hrest

/-- C4: a formal parameter whose declared shape has rank ≥ 1 and a zero
dimension is (a) recorded in the OutputMap as an empty constant — value
vector of zero elements — instead of a parameter value, (b) excluded from the
assembled function's formal parameter list, and (c) still resolvable by any
consumer that references it. -/
theorem zero_dim_param_replaced_by_empty_constant
    (env : TranslateEnv) (inputs : List (List Nat)) (tensors : List Tensor)
    (parm : TFNode) (om : OpMap) (plist : List (Option ParamNode))
    (dtype : DataType) (index : Nat) (ngEt : NgElemType)
    (ngShape : List Nat) (provTag : String) (consumer : TFNode)
    (hdt : parm.dtypeAttr = some dtype)
    (hidx : parm.indexAttr = some index)
    (het : tfDataTypeToNgElementType dtype = some ngEt)
    (hshape : inputs.get? index = some ngShape)
    (hrank : ngShape.length > 0)
    (hzero : 0 ∈ ngShape)
    (hprov : parm.provTagAttr = some provTag)
    (hlen : index < plist.length)
    (hfresh : lookupOpMap om parm.name = none)
    (hcons : consumer.inputs.get? 0 = some (parm.name, 0)) :
    processOneParam env inputs tensors parm (om, plist) =
      .ok (saveNgOp om parm.name
             ⟨0, 0, .constant (List.replicate ngShape.prod 0), ngEt,
              some ngShape, [provTag]⟩,
           plist.set index (some ⟨provTag, ngEt, ngShape⟩)) ∧
    List.replicate ngShape.prod (0 : Int) = [] ∧
    paramIncluded ⟨provTag, ngEt, ngShape⟩ = false ∧
    (∀ params : List ParamNode,
      (⟨provTag, ngEt, ngShape⟩ : ParamNode) ∉ params.filter paramIncluded) ∧
    getInputNode
        (saveNgOp om parm.name
          ⟨0, 0, .constant (List.replicate ngShape.prod 0), ngEt,
           some ngShape, [provTag]⟩)
        consumer 0 =
      .ok ⟨0, 0, .constant (List.replicate ngShape.prod 0), ngEt,
           some ngShape, [provTag]⟩ := by
  have hprod : ngShape.prod = 0 := List.prod_eq_zero hzero
  have hcheck : (ngShape.length > 0 && ngShape.any (· = 0)) = true := by
    simp only [Bool.and_eq_true, decide_eq_true_eq, List.any_eq_true]
    exact ⟨by omega, 0, hzero, by simp⟩
  have hincl : paramIncluded ⟨provTag, ngEt, ngShape⟩ = false := by
    simp [paramIncluded, hcheck]
  refine ⟨?_, ?_, hincl, ?_, ?_⟩
  · rw [List.get?_eq_getElem?] at hshape
    simp [processOneParam, hdt, hidx, het, hshape, hprov, hrank, hzero, hlen]
  · simp [hprod]
  · intro params hm
    rw [List.mem_filter] at hm
    rw [hincl] at hm
    exact absurd hm.2 (by simp)
  · have hlook := lookupOpMap_saveNgOp_fresh om parm.name
      ⟨0, 0, .constant (List.replicate ngShape.prod 0), ngEt,
       some ngShape, [provTag]⟩ hfresh
    rw [List.get?_eq_getElem?] at hcons
    simp [getInputNode, hcons, hlook]

/-- Witness for C4: a parameter declared with shape `[0, 3]` at index 0. -/
theorem zero_dim_param_replaced_by_empty_constant_witness :
    processOneParam { registry := [] } [[0, 3]] []
      { name := "p0", typeString := "_Arg", indexAttr := some 0,
        dtypeAttr := some .DT_FLOAT, provTagAttr := some "p0" }
      ([], [none]) =
      .ok ([("p0", [⟨0, 0, .constant [], .f32, some [0, 3], ["p0"]⟩])],
           [some ⟨"p0", .f32, [0, 3]⟩]) ∧
    getInputNode [("p0", [⟨0, 0, .constant [], .f32, some [0, 3], ["p0"]⟩])]
      { name := "c", typeString := "Abs", inputs := [("p0", 0)] } 0 =
      .ok ⟨0, 0, .constant [], .f32, some [0, 3], ["p0"]⟩ := by
  have h := zero_dim_param_replaced_by_empty_constant
    { registry := [] } [[0, 3]] []
    { name := "p0", typeString := "_Arg", indexAttr := some 0,
      dtypeAttr := some .DT_FLOAT, provTagAttr := some "p0" }
    [] [none] .DT_FLOAT 0 .f32 [0, 3] "p0"
    { name := "c", typeString := "Abs", inputs := [("p0", 0)] }
    rfl rfl rfl rfl (by decide) (by decide) rfl (by decide) rfl rfl
  exact ⟨h.1, h.2.2.2.2⟩

/-- A registered handler whose output value is dynamically shaped (as e.g.
the `Where` or `NonMaxSuppression` lowerings produce). -/
def dynHandler : Handler := fun op _ om =>
  .ok (saveNgOp om op.name ⟨1, 0, .handlerMade, .f32, none, []⟩)

/-- Counterexample to C3 as stated: a result node whose value is dynamically
shaped is **included** in the assembled formal result list (the
`is_dynamic()` disjunct short-circuits the push condition to true), not
excluded as the claim says — the translated function below has one formal
result, where the claim predicts none. -/
theorem dynamic_result_not_excluded :
    translateGraph { registry := [("DynOp", dynHandler)] } [] []
      [{ name := "d", typeString := "DynOp" },
       { name := "r", typeString := "_Retval", indexAttr := some 0,
         inputs := [("d", 0)] }] "f" [] =
      .ok (⟨"f", [], [⟨"r", ⟨1, 0, .handlerMade, .f32, none, []⟩, true⟩]⟩,
           [some ⟨"r", ⟨1, 0, .handlerMade, .f32, none, []⟩, false⟩]) ∧
    ([(⟨"r", ⟨1, 0, .handlerMade, .f32, none, []⟩, true⟩ : ResultNode)] :
      List ResultNode) ≠ [] :=
  ⟨by decide, by decide⟩

/-- C3 amended: a result is excluded from the assembled formal result list
exactly when it is *not* dynamically shaped and its static shape has rank ≥ 1
containing a zero dimension; dynamically-shaped results are included (the
dynamic check short-circuits the zero-dimension exclusion), and every other
result is included as well.  All excluded results were still computed — they
are dropped only from the assembled function's formal list. -/
theorem result_list_filter_spec :
    (∀ r : ResultNode,
      resultIncluded r = true ↔
        (r.value.shape = none ∨
         ∃ s, r.value.shape = some s ∧ ¬(s.length > 0 ∧ 0 ∈ s)))
    ∧ (∀ (name : String) (plist : List (Option ParamNode))
          (rlist : List (Option ResultNode)) (f : NgFunction),
        assembleFunction name plist rlist = .ok f →
        ∃ results, collectSlots rlist = .ok results ∧
          f.results = results.filter resultIncluded) := by
  constructor
  · intro r
    cases hs : r.value.shape with
    | none => simp [resultIncluded, hs]
    | some s =>
      simp only [resultIncluded, hs, Bool.not_eq_true']
      constructor
      · intro h
        refine Or.inr ⟨s, rfl, ?_⟩
        intro ⟨h1, h2⟩
        simp only [Bool.and_eq_false_iff, decide_eq_false_iff_not,
          List.any_eq_false, decide_eq_true_eq] at h
        rcases h with h | h
        · omega
        · exact h 0 h2 rfl
      · intro h
        rcases h with h | ⟨s', hs', hnot⟩
        · exact absurd h (by simp)
        · injection hs' with hss
          subst hss
          simp only [Bool.and_eq_false_iff, decide_eq_false_iff_not,
            List.any_eq_false, decide_eq_true_eq]
          by_cases hl : s.length > 0
          · refine Or.inr ?_
            intro x hx hx0
            exact hnot ⟨hl, hx0 ▸ hx⟩
          · exact Or.inl hl
  · intro name plist rlist f h
    unfold assembleFunction at h
    rcases hp : collectSlots (α := ParamNode) plist with e | params
    · rw [hp] at h
      exact absurd h (by simp)
    · rw [hp] at h
      rcases hr : collectSlots (α := ResultNode) rlist with e | results
      · rw [hr] at h
        exact absurd h (by simp)
      · rw [hr] at h
        refine ⟨results, rfl, ?_⟩
        injection h with h
        rw [← h]

/-- Witness for C3 (amended): a concrete assembly whose single (dynamic)
result slot survives the filter. -/
theorem result_list_filter_spec_witness :
    ∃ results,
      collectSlots [some (⟨"r", ⟨1, 0, .handlerMade, .f32, none, []⟩, false⟩ :
        ResultNode)] = .ok results ∧
      (NgFunction.mk "f" []
        [⟨"r", ⟨1, 0, .handlerMade, .f32, none, []⟩, false⟩]).results =
        results.filter resultIncluded :=
  result_list_filter_spec.2 "f" []
    [some ⟨"r", ⟨1, 0, .handlerMade, .f32, none, []⟩, false⟩]
    ⟨"f", [], [⟨"r", ⟨1, 0, .handlerMade, .f32, none, []⟩, false⟩]⟩ rfl

theorem nodeLE_antisymm_name {a b : TFNode} (hab : nodeLE a b)
    (hba : nodeLE b a) : a.name = b.name := by
  have h : a.name.data = b.name.data := le_antisymm hab hba
  cases ha : a.name with
  | mk da =>
    cases hb : b.name with
    | mk db =>
      rw [ha, hb] at h
      simp at h
      rw [h]

/-- Two name-sorted lists that are permutations of each other and have
pairwise-distinct node names are equal. -/
theorem sorted_perm_nodup_name_eq :
    ∀ (l1 l2 : List TFNode), l1.Perm l2 →
      l1.Sorted nodeLE → l2.Sorted nodeLE →
      (l1.map TFNode.name).Nodup → l1 = l2
  | [], l2, hperm, _, _, _ => hperm.symm.eq_nil.symm ▸ rfl
  | a :: t1, l2, hperm, hs1, hs2, hnd => by
    cases l2 with
    | nil =>
      exact absurd hperm.eq_nil (by simp)
    | cons b t2 =>
      have hb_mem : b ∈ a :: t1 := hperm.mem_iff.mpr (List.mem_cons_self b t2)
      have hab : a = b := by
        rcases List.mem_cons.mp hb_mem with h | hbt1
        · exact h.symm
        · have ha_mem : a ∈ b :: t2 :=
            hperm.mem_iff.mp (List.mem_cons_self a t1)
          rcases List.mem_cons.mp ha_mem with h | hat2
          · exact h
          · have h1 : nodeLE a b := (List.sorted_cons.mp hs1).1 b hbt1
            have h2 : nodeLE b a := (List.sorted_cons.mp hs2).1 a hat2
            have hname : a.name = b.name := nodeLE_antisymm_name h1 h2
            exfalso
            have hmem : a.name ∈ t1.map TFNode.name :=
              List.mem_map.mpr ⟨b, hbt1, hname.symm⟩
            exact (List.nodup_cons.mp hnd).1 hmem
      subst hab
      have htail := sorted_perm_nodup_name_eq t1 t2 hperm.cons_inv
        (List.sorted_cons.mp hs1).2 (List.sorted_cons.mp hs2).2
        (List.nodup_cons.mp hnd).2
      rw [htail]

theorem insertionSort_perm_nodup_eq (l1 l2 : List TFNode)
    (hperm : l1.Perm l2) (hnd : (l1.map TFNode.name).Nodup) :
    l1.insertionSort nodeLE = l2.insertionSort nodeLE := by
  apply sorted_perm_nodup_name_eq
  · exact (List.perm_insertionSort nodeLE l1).trans
      (hperm.trans (List.perm_insertionSort nodeLE l2).symm)
  · exact List.sorted_insertionSort nodeLE l1
  · exact List.sorted_insertionSort nodeLE l2
  · exact (((List.perm_insertionSort nodeLE l1).map TFNode.name).symm).nodup
      hnd

/-- C5: `TranslateGraph` is deterministic in the order of the input node
list — for two graphs that are permutations of each other (with distinct
node names; in particular graphs differing only by a permutation of
unrelated sibling nodes), the produced TargetFunction and result list are
identical, because the visit order canonicalizes the node list by sorting on
names before the topological pass. -/
theorem translateGraph_node_order_invariant (env : TranslateEnv)
    (inputs : List (List Nat)) (smap : StaticInputMap)
    (g1 g2 : List TFNode) (name : String) (tensors : List Tensor)
    (hperm : g1.Perm g2)
    (hnd : (g1.map TFNode.name).Nodup) :
    translateGraph env inputs smap g1 name tensors =
      translateGraph env inputs smap g2 name tensors := by
  unfold translateGraph getReversePostOrderByName
  rw [insertionSort_perm_nodup_eq g1 g2 hperm hnd]

/-- Witness for C5: swapping two unrelated sibling `NoOp` nodes leaves the
translation unchanged. -/
theorem translateGraph_node_order_invariant_witness :
    translateGraph { registry := trivialRegistry } [] []
      [{ name := "a", typeString := "NoOp" },
       { name := "b", typeString := "NoOp" }] "f" [] =
    translateGraph { registry := trivialRegistry } [] []
      [{ name := "b", typeString := "NoOp" },
       { name := "a", typeString := "NoOp" }] "f" [] :=
  translateGraph_node_order_invariant { registry := trivialRegistry } [] []
    [{ name := "a", typeString := "NoOp" },
     { name := "b", typeString := "NoOp" }]
    [{ name := "b", typeString := "NoOp" },
     { name := "a", typeString := "NoOp" }] "f" []
    (List.Perm.swap _ _ _) (by decide)

end OvtfBuilder
